import Mathlib

/-!
Shallow embedding of the route-planning engine of the webGIS_for_GVI repository
(backend services `routing_engine.js`, `sl_api_service.js`, the DGVI calculator,
and the route-plan data model), together with theorems settling the spec claims.

Numbers that the JavaScript code handles as ordinary IEEE doubles are modelled
as exact rationals; the one code path where the source performs arithmetic on
absent object fields (and therefore on `NaN`) is modelled with the explicit
`JsNum` type that mirrors `NaN` propagation.
-/

namespace WebGisGvi

/-- Insertion of an element into a list that is sorted with respect to `le`. -/
def insertLe {α : Type} (le : α → α → Bool) (a : α) : List α → List α
  | [] => [a]
  | b :: l => if le a b then a :: b :: l else b :: insertLe le a l

/-- Insertion sort by the Boolean comparison `le`; used to model the various
SQL `ORDER BY` clauses and JavaScript `Array.prototype.sort` calls. -/
def sortLe {α : Type} (le : α → α → Bool) : List α → List α
  | [] => []
  | a :: l => insertLe le a (sortLe le l)

/-- JavaScript truthiness of a possibly-absent integer id: `undefined`, `null`
and `0` are falsy.  Used for the `!dep.journey?.id`-style guards. -/
def jsId (o : Option ℤ) : Option ℤ :=
  match o with
  | none => none
  | some n => if n = 0 then none else some n

/-- JavaScript strict inequality `a !== b` on possibly-absent integers:
`undefined !== undefined` is `false`, `undefined !== n` is `true`. -/
def jsStrictNeq (a b : Option ℤ) : Bool :=
  match a, b with
  | some x, some y => decide (x ≠ y)
  | none, none => false
  | _, _ => true

/-- Walking speed constant of the engine: 1.4 m/s. -/
def walkingSpeed : ℚ := 7 / 5

/-! ## DGVI calculator (`dgvi_calculator.js`)

`calculateSegmentDGVI` runs one SQL query per road edge.  The spatial layer
delivers, for the requested (road, month), the edge length and the list of
matched GVI points — every point of that month within the 1-meter geographic
buffer of the edge geometry, each carrying its `ST_LineLocatePoint` parameter
and its gvi value.  The embedding takes that delivered data as input and
reproduces the arithmetic of the query. -/

/-- A matched GVI point as produced by the `matched_gvi_points` CTE:
`position` is the line parameter in `[0,1]`, `gvi` the greenness value. -/
structure GviPoint where
  position : ℚ
  gvi : ℚ
deriving DecidableEq

/-- ORDER BY position (ascending), as used by `points_with_endpoints` and by
the window function `LEAD(...) OVER (ORDER BY position)`. -/
def sortByPosition (pts : List GviPoint) : List GviPoint :=
  sortLe (fun a b => decide (a.position ≤ b.position)) pts

/-- The `points_with_endpoints` CTE: the matched points, a synthesized point at
parameter 0 (carrying the gvi of the first matched point by position, or 0 if
none matched) when no matched point sits exactly at 0, the symmetric
synthesized point at parameter 1, all ordered by position. -/
def pointsWithEndpoints (matched : List GviPoint) : List GviPoint :=
  let zeroPoint :=
    if matched.any (fun p => p.position = 0) then []
    else [⟨0, (((sortByPosition matched).head?).map GviPoint.gvi).getD 0⟩]
  let onePoint :=
    if matched.any (fun p => p.position = 1) then []
    else [⟨1, (((sortByPosition matched).getLast?).map GviPoint.gvi).getD 0⟩]
  sortByPosition (matched ++ zeroPoint ++ onePoint)

/-- The `segment_intervals` sum: over each consecutive pair of position-ordered
points, `(end_pos - start_pos) * total_length * ((start_gvi + end_gvi)/2 - 1)`;
`COALESCE(SUM(...), 0)` over the empty set of intervals yields 0. -/
def intervalSum (roadLength : ℚ) : List GviPoint → ℚ
  | a :: b :: rest =>
      (b.position - a.position) * roadLength * ((a.gvi + b.gvi) / 2 - 1)
        + intervalSum roadLength (b :: rest)
  | _ => 0

/-- `DGVICalculator.calculateSegmentDGVI` for a road of length `roadLength`
whose matched GVI points for the requested month are `matched`. -/
def calculateSegmentDGVI (roadLength : ℚ) (matched : List GviPoint) : ℚ :=
  intervalSum roadLength (pointsWithEndpoints matched)

/-! ## Per-month DGVI rebuild (`DGVICalculator.updateAllRoadDGVI`)

The rebuild reads all road ids (ordered by id), processes them in batches of
100, upserts one `road_dgvi` row per (road, month), and finally recomputes the
per-month min-max normalization.  The spatial inputs are abstracted into the
deterministic per-road DGVI function `segDGVI` (the GVI point layer is not
modified by the rebuild, so two runs see the same inputs). -/

/-- A row of the `road_dgvi` table.  `dgvi_normalized` is `none` while the
column still holds its SQL `NULL` (freshly inserted rows). -/
structure DgviRow where
  road_id : ℤ
  month : String
  dgvi : ℚ
  dgvi_normalized : Option ℚ
deriving DecidableEq

/-- Does a row belong to the given (road, month) primary key? -/
def rowMatches (r : ℤ) (m : String) (row : DgviRow) : Bool :=
  decide (row.road_id = r) && decide (row.month = m)

/-- `INSERT ... ON CONFLICT (road_id, month) DO UPDATE SET dgvi = $3`:
replace the dgvi of the existing (road, month) row, leaving
`dgvi_normalized` untouched, or append a fresh row with a NULL
`dgvi_normalized`. -/
def upsertDgvi (t : List DgviRow) (r : ℤ) (m : String) (v : ℚ) : List DgviRow :=
  if t.any (rowMatches r m) then
    t.map (fun row => if rowMatches r m row then { row with dgvi := v } else row)
  else t ++ [⟨r, m, v, none⟩]

/-- Upsert one batch of road ids in order. -/
def upsertBatch (segDGVI : ℤ → ℚ) (m : String) (t : List DgviRow) (batch : List ℤ) :
    List DgviRow :=
  batch.foldl (fun acc r => upsertDgvi acc r m (segDGVI r)) t

/-- The batched processing loop (`for (let i = 0; i < totalRoads; i += batchSize)`
with `batchSize = 100`). -/
def runDgviBatches (segDGVI : ℤ → ℚ) (m : String) : List ℤ → List DgviRow → List DgviRow
  | [], t => t
  | r :: rs, t =>
      runDgviBatches segDGVI m ((r :: rs).drop 100)
        (upsertBatch segDGVI m t ((r :: rs).take 100))
termination_by l _ => l.length
decreasing_by simp [List.length_drop]; omega

/-- The dgvi values of all rows of month `m`, in table order. -/
def monthDgvis (t : List DgviRow) (m : String) : List ℚ :=
  (t.filter (fun row => decide (row.month = m))).map DgviRow.dgvi

/-- One row of the final `UPDATE road_dgvi SET dgvi_normalized = CASE ... END`
statement, given the month statistics `mn`/`mx`. -/
def normRow (m : String) (mn mx : ℚ) (row : DgviRow) : DgviRow :=
  if row.month = m then
    { row with dgvi_normalized := some (if mx = mn then 0 else (row.dgvi - mn) / (mx - mn)) }
  else row

/-- The per-month normalization step: min-max over the month's rows; when the
month has no rows the `UPDATE ... WHERE month = $1` touches nothing. -/
def normalizeMonth (t : List DgviRow) (m : String) : List DgviRow :=
  match monthDgvis t m with
  | [] => t
  | v :: vs => t.map (normRow m (vs.foldl min v) (vs.foldl max v))

/-- `DGVICalculator.updateAllRoadDGVI` for month `m`: batch-upsert every road's
freshly computed dgvi, then recompute the month's normalization. -/
def updateAllRoadDGVI (segDGVI : ℤ → ℚ) (m : String) (roads : List ℤ)
    (t : List DgviRow) : List DgviRow :=
  normalizeMonth (runDgviBatches segDGVI m roads t) m

/-- Minimum of the month's dgvi values (`MIN(dgvi) ... WHERE month = $1`);
`none` when the month has no rows. -/
def monthMinDgvi (t : List DgviRow) (m : String) : Option ℚ :=
  match monthDgvis t m with
  | [] => none
  | v :: vs => some (vs.foldl min v)

/-- Maximum of the month's dgvi values (`MAX(dgvi) ... WHERE month = $1`);
`none` when the month has no rows. -/
def monthMaxDgvi (t : List DgviRow) (m : String) : Option ℚ :=
  match monthDgvis t m with
  | [] => none
  | v :: vs => some (vs.foldl max v)

/-! ## SL transit feed client (`sl_api_service.js`) -/

/-- The `line` object of a departure record (`id`, `designation`,
`transport_mode`). -/
structure LineInfo where
  id : ℤ
  designation : String
  transport_mode : String
deriving DecidableEq

/-- The `stop_point` object of a departure record. -/
structure StopPointRef where
  id : ℤ
  name : String
deriving DecidableEq

/-- A departure record as delivered by the SL departures endpoint.  `expected`
is the expected timestamp in milliseconds since the epoch (JavaScript `Date`
arithmetic works on milliseconds).  `journey_id` models `journey?.id`. -/
structure Departure where
  journey_id : Option ℤ
  line : Option LineInfo
  direction_code : ℤ
  stop_point : Option StopPointRef
  expected : ℚ
  destination : String
deriving DecidableEq

/-- The HTTP response of `GET /sites/{siteId}/departures`. -/
structure SLResponse where
  status : ℕ
  departures : Option (List Departure)

/-- The remote SL API: one HTTP fetch per (site id, forecast seconds), either a
response or a network/HTTP error. -/
structure SLEnv where
  fetchDepartures : ℤ → ℕ → Except String SLResponse

/-- The upstream request issued by `SLApiService.getDepartures`: the source
hard-codes `const forecast = 1200;`, so the `forecastLimit` argument never
reaches the URL. -/
def departuresRequest (siteId : ℤ) (forecastLimit : ℕ) : ℤ × ℕ :=
  (siteId, 1200)

/-- `SLApiService.getDepartures`: fetch with the fixed 1200-second forecast,
keep only departures whose line has `transport_mode === 'BUS'`; any error or
non-200 status yields the empty list (the catch clause returns `[]`). -/
def getDepartures (env : SLEnv) (siteId : ℤ) (forecastLimit : ℕ) : List Departure :=
  match env.fetchDepartures (departuresRequest siteId forecastLimit).1
      (departuresRequest siteId forecastLimit).2 with
  | .error _ => []
  | .ok resp =>
      if resp.status = 200 then
        (resp.departures.getD []).filter
          (fun d =>
            match d.line with
            | some l => decide (l.transport_mode = "BUS")
            | none => false)
      else []

/-- JavaScript `Map.set` on an association list: replace the value of an
existing key in place, otherwise append the new entry. -/
def mapSet {β : Type} : List (ℤ × β) → ℤ → β → List (ℤ × β)
  | [], k, v => [(k, v)]
  | p :: rest, k, v => if p.1 = k then (k, v) :: rest else p :: mapSet rest k v

/-- JavaScript `Map.get` on an association list. -/
def mapLookup {β : Type} (mp : List (ℤ × β)) (k : ℤ) : Option β :=
  (mp.find? (fun p => decide (p.1 = k))).map Prod.snd

/-- `SLApiService.getBatchDepartures`: sequentially call `getDepartures` for
every site id and store the result under that id.  `getDepartures` never
throws (its own catch clause returns `[]`), so the per-iteration catch branch
`results.set(siteId, [])` is unreachable and the loop always completes. -/
def getBatchDepartures (env : SLEnv) (siteIds : List ℤ) (forecastLimit : ℕ) :
    List (ℤ × List Departure) :=
  siteIds.foldl (fun results siteId => mapSet results siteId (getDepartures env siteId forecastLimit)) []

/-! ## Route segments and route plans (`route_segment_structures.js`,
`route_plan.js`)

Only the fields that the planner reads back are modelled (durations,
distances, road-id lists, stop geometry, expected arrival); purely
presentational fields (descriptions, GeoJSON features, stop names) are
omitted. -/

/-- A geographic point `{lat, lon}`. -/
structure Point where
  lat : ℚ
  lon : ℚ
deriving DecidableEq

/-- The segment type tag. -/
inductive SegmentType
  | walking
  | bus_waiting
  | bus_ride
deriving DecidableEq

/-- A route segment.  `roadIds` is `none` when the field is absent on the
JavaScript object (bus-waiting segments), `some` when it holds an array
(walking and bus-ride segments always coerce it with `|| []`). -/
structure Segment where
  type : SegmentType
  intraSiteTransfer : Bool
  duration : ℚ
  distance : ℚ
  roadIds : Option (List ℤ)
  stopGeom : Option Point
  expectedArrival : Option ℚ
deriving DecidableEq

/-- `SegmentFactory.createWalkingSegment`: `distance` and `roadIds` are coerced
with `config.distance || 0` and `config.roadIds || []`. -/
def createWalkingSegment (duration : ℚ) (distance : Option ℚ) (roadIds : Option (List ℤ)) :
    Segment :=
  ⟨.walking, false, duration, distance.getD 0, some (roadIds.getD []), none, none⟩

/-- `SegmentFactory.createWaitingSegment` (`duration: config.duration || 0`).
Bus-waiting segments carry no `roadIds` field. -/
def createWaitingSegment (duration : ℚ) (stopGeom : Point) : Segment :=
  ⟨.bus_waiting, false, duration, 0, none, some stopGeom, none⟩

/-- `SegmentFactory.createBusRideSegment` (`roadIds: config.roadIds || []`). -/
def createBusRideSegment (duration : ℚ) (roadIds : Option (List ℤ))
    (expectedArrival : Option ℚ) : Segment :=
  ⟨.bus_ride, false, duration, 0, some (roadIds.getD []), none, expectedArrival⟩

/-- The route type tag. -/
inductive RouteType
  | walking
  | direct_bus
  | transfer_bus
deriving DecidableEq

/-- A route plan.  The scoring fields start at 0 (`RoutePlan` constructor) and
are overwritten by the scoring phase. -/
structure RoutePlan where
  routeType : RouteType
  segments : List Segment
  totalDuration : ℚ
  totalAcDGVI : ℚ
  durationScore : ℚ
  acDGVIScore : ℚ
  totalScore : ℚ
deriving DecidableEq

/-- `RoutePlan.createWalkingRoute`: a single walking segment covering the whole
trip.  `totalDistance` and `roadIds` may be SQL `NULL` (see the equal-vertex
edge case of the path solver). -/
def RoutePlan.createWalkingRoute (totalDuration : ℚ) (totalDistance : Option ℚ)
    (roadIds : Option (List ℤ)) : RoutePlan :=
  ⟨.walking, [createWalkingSegment totalDuration totalDistance roadIds],
    totalDuration, 0, 0, 0, 0⟩

/-- The configuration record handed to `RoutePlan.createDirectBusRoute` by
`findDirectRoutes`. -/
structure DirectBusConfig where
  walkingToDeparture : ℚ
  walkingToDepDistance : ℚ
  walkingToDepRoadIds : List ℤ
  departureStopGeom : Point
  busRideDuration : ℚ
  expectedDeparture : ℚ
  expectedArrival : ℚ
  walkingFromArrival : ℚ
  walkingFromArrDistance : ℚ
  walkingFromArrRoadIds : List ℤ
  totalDuration : ℚ
deriving DecidableEq

/-- `RoutePlan.createDirectBusRoute`: optional walk to the departure stop (only
when its duration is `> 0`), a zero-duration waiting segment, the bus ride,
and an optional walk from the arrival stop. -/
def RoutePlan.createDirectBusRoute (cfg : DirectBusConfig) : RoutePlan :=
  ⟨.direct_bus,
    (if cfg.walkingToDeparture > 0 then
      [createWalkingSegment cfg.walkingToDeparture (some cfg.walkingToDepDistance)
        (some cfg.walkingToDepRoadIds)]
     else [])
    ++ [createWaitingSegment 0 cfg.departureStopGeom,
        createBusRideSegment cfg.busRideDuration (some []) (some cfg.expectedArrival)]
    ++ (if cfg.walkingFromArrival > 0 then
      [createWalkingSegment cfg.walkingFromArrival (some cfg.walkingFromArrDistance)
        (some cfg.walkingFromArrRoadIds)]
     else []),
    cfg.totalDuration, 0, 0, 0, 0⟩

/-- Sum of the durations of a route's segments. -/
def sumDurations (r : RoutePlan) : ℚ :=
  (r.segments.map Segment.duration).sum

/-! ## Bus-route scoring (`RoutingEngine.scoreBusRoutes`) -/

/-- The preference vector `{time, green}`. -/
structure Preferences where
  time : ℚ
  green : ℚ
deriving DecidableEq

/-- `Math.min(...xs)` over the values delivered by a non-empty `map`; the
empty case is unreachable (the caller guards `routes.length === 0`). -/
def listMin : List ℚ → ℚ
  | [] => 0
  | v :: vs => vs.foldl min v

/-- `Math.max(...xs)` over the values delivered by a non-empty `map`. -/
def listMax : List ℚ → ℚ
  | [] => 0
  | v :: vs => vs.foldl max v

/-- The local `timeNorm` of `scoreBusRoutes`:
`maxTime > minTime ? (duration - minTime)/(maxTime - minTime) : 0`. -/
def timeNormOf (routes : List RoutePlan) (r : RoutePlan) : ℚ :=
  let mn := listMin (routes.map RoutePlan.totalDuration)
  let mx := listMax (routes.map RoutePlan.totalDuration)
  if mx > mn then (r.totalDuration - mn) / (mx - mn) else 0

/-- The local `dgviNorm` of `scoreBusRoutes`.  The min/max are taken over
`r.totalAcDGVI || 0`, which on rationals coincides with `r.totalAcDGVI`. -/
def dgviNormOf (routes : List RoutePlan) (r : RoutePlan) : ℚ :=
  let mn := listMin (routes.map RoutePlan.totalAcDGVI)
  let mx := listMax (routes.map RoutePlan.totalAcDGVI)
  if mx > mn then (r.totalAcDGVI - mn) / (mx - mn) else 0

/-- `RoutingEngine.scoreBusRoutes`: normalize time and accumulated DGVI inside
the candidate set, store the inverted larger-is-better scores
(`durationScore = 1 - timeNorm`, `acDGVIScore = dgviNorm`,
`totalScore = 1 - (w_time*timeNorm + w_green*(1 - dgviNorm))`), then sort by
descending `totalScore`. -/
def scoreBusRoutes (routes : List RoutePlan) (p : Preferences) : List RoutePlan :=
  match routes with
  | [] => []
  | _ :: _ =>
      sortLe (fun a b => decide (b.totalScore ≤ a.totalScore))
        (routes.map (fun r =>
          { r with
            durationScore := 1 - timeNormOf routes r
            acDGVIScore := dgviNormOf routes r
            totalScore :=
              1 - (p.time * timeNormOf routes r + p.green * (1 - dgviNormOf routes r)) }))

/-! ## Walking-route deduplication (`RoutingEngine.deduplicateRoutes`) -/

/-- The fingerprint of a route: collect the `roadIds` arrays of all segments
that carry one, flatten, sort with the default JavaScript comparator (which
compares the decimal string forms), and join with commas. -/
def fingerprint (r : RoutePlan) : String :=
  String.intercalate ","
    (sortLe (fun a b => decide (a ≤ b))
      (((r.segments.filterMap Segment.roadIds).flatten).map toString))

/-- The loop body of `deduplicateRoutes`, threading the `seen` fingerprint
set. -/
def dedupGo (seen : List String) : List RoutePlan → List RoutePlan
  | [] => []
  | r :: rest =>
      if fingerprint r ∈ seen then dedupGo seen rest
      else r :: dedupGo (fingerprint r :: seen) rest

/-- `RoutingEngine.deduplicateRoutes`: keep the first route of every
fingerprint. -/
def deduplicateRoutes (routes : List RoutePlan) : List RoutePlan :=
  dedupGo [] routes

/-! ## Path solver (`calculateWalkingRoute`, `calculateWalkingSegment`)

The spatial store is abstracted into `PathEnv`: the nearest-vertex lookup and
the `pgr_dijkstra` call, which — given the two preference weights and the
month that the engine interpolates into the cost expression — returns the
ordered rows `(edge id, length)` of the found path, and the empty list when no
path row exists (in particular when source and target vertex coincide). -/

/-- One row of the `route_segments` CTE: edge id and edge length. -/
structure EdgeRow where
  road_id : ℤ
  length : ℚ
deriving DecidableEq

/-- The spatial-store interface consumed by the path solver. -/
structure PathEnv where
  nearestVertex : Point → Option ℤ
  dijkstraEdges : ℚ → ℚ → String → ℤ → ℤ → List EdgeRow
  mergeGeometry : List ℤ → String

/-- The record returned by `calculateWalkingSegment`. -/
structure WalkSegResult where
  duration : ℚ
  distance : ℚ
  roadIds : List ℤ
  geometry : Option String
deriving DecidableEq

/-- `RoutingEngine.calculateWalkingSegment`: resolve both endpoints to their
nearest vertices, run the weighted Dijkstra, and — because the SQL aggregate
row carries `NULL` arrays when no path row exists — fall back to the zero
record when either vertex is missing or `road_ids` is `NULL`. -/
def calculateWalkingSegment (env : PathEnv) (fromPt toPt : Point) (p : Preferences)
    (gviMonth : String) : WalkSegResult :=
  match env.nearestVertex fromPt, env.nearestVertex toPt with
  | some a, some b =>
      let rows := env.dijkstraEdges p.time p.green gviMonth a b
      if rows = [] then ⟨0, 0, [], none⟩
      else
        ⟨((rows.map EdgeRow.length).sum) / walkingSpeed,
          (rows.map EdgeRow.length).sum,
          rows.map EdgeRow.road_id,
          some (env.mergeGeometry (rows.map EdgeRow.road_id))⟩
  | _, _ => ⟨0, 0, [], none⟩

/-- `RoutingEngine.calculateWalkingRoute`: like the segment variant but
producing a full walking `RoutePlan`; a missing nearest vertex throws (modelled
as `none`).  When the Dijkstra rows are empty the SQL aggregates deliver
`NULL`, which JavaScript coerces to 0 in the division by the walking speed
(`null / 1.4 === 0`) and which the segment factory coerces with `|| 0` and
`|| []`. -/
def calculateWalkingRoute (env : PathEnv) (origin destination : Point)
    (gviMonth : String) (p : Preferences) : Option RoutePlan :=
  match env.nearestVertex origin, env.nearestVertex destination with
  | some a, some b =>
      let rows := env.dijkstraEdges p.time p.green gviMonth a b
      let roadIds : Option (List ℤ) :=
        if rows = [] then none else some (rows.map EdgeRow.road_id)
      let totalLength : Option ℚ :=
        if rows = [] then none else some ((rows.map EdgeRow.length).sum)
      some (RoutePlan.createWalkingRoute ((totalLength.getD 0) / walkingSpeed)
        totalLength roadIds)
  | _, _ => none

/-! ## DGVI scoring of routes (`dgvi_calculator.js`, remaining operations) -/

/-- The per-road spatial inputs of the DGVI calculator: edge length, matched
GVI points per month, and the road edges whose geometry lies within 200 m of a
point (the `ST_DWithin(..., 200)` query of `calculateWaitingDGVI`). -/
structure DgviEnv where
  roadLength : ℤ → ℚ
  matchedPoints : ℤ → String → List GviPoint
  nearbyRoads : Point → List ℤ

/-- `DGVICalculator.calculateWalkingDGVI`: sum of per-edge DGVI over the
ordered road-id list; empty or missing lists contribute 0. -/
def calculateWalkingDGVI (de : DgviEnv) (roadIds : List ℤ) (month : String) : ℚ :=
  match roadIds with
  | [] => 0
  | _ :: _ =>
      (roadIds.map (fun rid =>
        calculateSegmentDGVI (de.roadLength rid) (de.matchedPoints rid month))).sum

/-- `DGVICalculator.calculateWaitingDGVI`: every road within 200 m of the stop
contributes `length * avg_gvi - length`, where `avg_gvi` averages the matched
GVI points of the month within the 1-meter buffer of the edge; roads with no
matched points contribute 0. -/
def calculateWaitingDGVI (de : DgviEnv) (stopGeom : Point) (month : String) : ℚ :=
  ((de.nearbyRoads stopGeom).map (fun rid =>
    match de.matchedPoints rid month with
    | [] => 0
    | ps =>
        de.roadLength rid * ((ps.map GviPoint.gvi).sum / ps.length)
          - de.roadLength rid)).sum

/-- `DGVICalculator.calculateRouteDGVI`: walking segments contribute their
walking DGVI (when `roadIds` is a non-empty array), bus-waiting segments their
waiting DGVI (when `stopGeom` is set), bus-ride segments contribute nothing
(the ride DGVI is intentionally not accumulated). -/
def calculateRouteDGVI (de : DgviEnv) (r : RoutePlan) (month : String) : ℚ :=
  (r.segments.map (fun s =>
    match s.type with
    | .walking =>
        match s.roadIds with
        | some ids => if ids.length > 0 then calculateWalkingDGVI de ids month else 0
        | none => 0
    | .bus_waiting =>
        match s.stopGeom with
        | some g => calculateWaitingDGVI de g month
        | none => 0
    | .bus_ride => 0)).sum

/-! ## Planner (`RoutingEngine.planRoutes` and its candidate generators) -/

/-- A nearby transit site as returned by `findNearbySites` (id, coordinates,
straight-line walking distance in meters). -/
structure Site where
  siteId : ℤ
  lat : ℚ
  lon : ℚ
  walkingDistance : ℚ
deriving DecidableEq

/-- A row of the `sl_bus_stop_points` table.  `site_id` is nullable. -/
structure StopPointRow where
  stop_point_id : ℤ
  site_id : Option ℤ
  stop_point_name : String
  lat : ℚ
  lon : ℚ
deriving DecidableEq

/-- `RoutingEngine.getStopPointSite`: the stop-point row with the given id, or
`null`. -/
def getStopPointSite (stopPoints : List StopPointRow) (id : ℤ) : Option StopPointRow :=
  stopPoints.find? (fun r => decide (r.stop_point_id = id))

/-- The site catalogue consumed by the bus branch of the planner. -/
structure SitesEnv where
  nearbySites : Point → List Site
  stopPoints : List StopPointRow

/-- The per-journey record stored in the `originJourneys` map of
`findDirectRoutes`. -/
structure OriginJourneyInfo where
  siteId : ℤ
  stopPointId : ℤ
  expectedTime : ℚ
  lineId : Option ℤ
  directionCode : ℤ
deriving DecidableEq

/-- The per-journey record stored in the `destJourneys` map of
`findDirectRoutes`. -/
structure DestJourneyInfo where
  siteId : ℤ
  stopPointId : ℤ
  expectedTime : ℚ
deriving DecidableEq

/-- The per-site departures map (`originDepartures` / `destDepartures`): one
entry per site of the list, holding the cached departures or `[]`. -/
def siteDeparturesMap (sites : List Site) (cache : List (ℤ × List Departure)) :
    List (ℤ × List Departure) :=
  sites.foldl (fun acc s => mapSet acc s.siteId ((mapLookup cache s.siteId).getD [])) []

/-- Build the `originJourneys` map: for every departure with truthy journey and
stop-point ids, record where and when the journey was observed. -/
def buildOriginJourneys (sites : List Site) (cache : List (ℤ × List Departure)) :
    List (ℤ × OriginJourneyInfo) :=
  (siteDeparturesMap sites cache).foldl
    (fun acc entry =>
      entry.2.foldl
        (fun acc2 dep =>
          match jsId dep.journey_id, jsId (dep.stop_point.map StopPointRef.id) with
          | some j, some sp =>
              mapSet acc2 j
                ⟨entry.1, sp, dep.expected, dep.line.map LineInfo.id, dep.direction_code⟩
          | _, _ => acc2)
        acc)
    []

/-- Build the `destJourneys` map: destination departures whose journey id also
appears in the origin map with matching line id and direction code. -/
def buildDestJourneys (sites : List Site) (cache : List (ℤ × List Departure))
    (originJourneys : List (ℤ × OriginJourneyInfo)) : List (ℤ × DestJourneyInfo) :=
  (siteDeparturesMap sites cache).foldl
    (fun acc entry =>
      entry.2.foldl
        (fun acc2 dep =>
          match jsId dep.journey_id, jsId (dep.stop_point.map StopPointRef.id) with
          | some j, some sp =>
              match mapLookup originJourneys j with
              | some originInfo =>
                  if originInfo.lineId = dep.line.map LineInfo.id
                      ∧ originInfo.directionCode = dep.direction_code then
                    mapSet acc2 j ⟨entry.1, sp, dep.expected⟩
                  else acc2
              | none => acc2
          | _, _ => acc2)
        acc)
    []

/-- The per-journey body of the route-creation loop of `findDirectRoutes`:
timing feasibility checks, stop-point resolution, the two walking
sub-segments, and the assembled direct-bus route plan; `none` models every
`continue`. -/
def buildDirectRoute (pe : PathEnv) (stopPoints : List StopPointRow)
    (originSites destSites : List Site) (currentTime maxDuration : ℚ)
    (gviMonth : String) (p : Preferences) (destJourneys : List (ℤ × DestJourneyInfo))
    (j : ℤ) (depInfo : OriginJourneyInfo) : Option RoutePlan :=
  match mapLookup destJourneys j with
  | none => none
  | some arrInfo =>
      let travelTime := (arrInfo.expectedTime - depInfo.expectedTime) / 1000
      if travelTime ≤ 0 ∨ travelTime > maxDuration then none
      else
        match originSites.find? (fun s => decide (s.siteId = depInfo.siteId)) with
        | none => none
        | some originSite =>
            let walkingTimeToDep := originSite.walkingDistance / walkingSpeed
            let timeUntilDeparture := (depInfo.expectedTime - currentTime) / 1000
            if walkingTimeToDep + 60 > timeUntilDeparture then none
            else
              match getStopPointSite stopPoints depInfo.stopPointId,
                  getStopPointSite stopPoints arrInfo.stopPointId with
              | some depStop, some arrStop =>
                  match destSites.find? (fun s => decide (s.siteId = arrInfo.siteId)) with
                  | none => none
                  | some destSite =>
                      let walkingToDep := calculateWalkingSegment pe
                        ⟨originSite.lat, originSite.lon⟩ ⟨depStop.lat, depStop.lon⟩ p gviMonth
                      let walkingFromArr := calculateWalkingSegment pe
                        ⟨arrStop.lat, arrStop.lon⟩ ⟨destSite.lat, destSite.lon⟩ p gviMonth
                      some (RoutePlan.createDirectBusRoute
                        ⟨walkingToDep.duration, walkingToDep.distance, walkingToDep.roadIds,
                          ⟨depStop.lat, depStop.lon⟩,
                          travelTime, depInfo.expectedTime, arrInfo.expectedTime,
                          walkingFromArr.duration, walkingFromArr.distance,
                          walkingFromArr.roadIds,
                          walkingToDep.duration + travelTime + walkingFromArr.duration⟩)
              | _, _ => none

/-- `RoutingEngine.findDirectRoutes`: correlate origin and destination
departures by journey id and assemble a direct-bus route plan for every
feasible match. -/
def findDirectRoutes (pe : PathEnv) (stopPoints : List StopPointRow)
    (originSites destSites : List Site) (currentTime maxDuration : ℚ)
    (gviMonth : String) (cache : List (ℤ × List Departure)) (p : Preferences) :
    List RoutePlan :=
  let originJourneys := buildOriginJourneys originSites cache
  let destJourneys := buildDestJourneys destSites cache originJourneys
  originJourneys.filterMap (fun entry =>
    buildDirectRoute pe stopPoints originSites destSites currentTime maxDuration
      gviMonth p destJourneys entry.1 entry.2)

/-- `RoutingEngine.getRouteArrivalTime`: the `expectedArrival` of the last
segment that has one, otherwise the clock time plus the total duration. -/
def getRouteArrivalTime (now : ℚ) (r : RoutePlan) : ℚ :=
  match (r.segments.reverse.find? (fun s => s.expectedArrival.isSome)).bind
      Segment.expectedArrival with
  | some t => t
  | none => now + r.totalDuration * 1000

/-- The step-5 waiting-DGVI accumulation of `generateBusCandidates`: sum the
waiting DGVI of every `bus_waiting` segment that carries a stop geometry. -/
def waitingDgviOfRoute (de : DgviEnv) (r : RoutePlan) (gviMonth : String) : ℚ :=
  (r.segments.map (fun s =>
    if s.type = SegmentType.bus_waiting then
      match s.stopGeom with
      | some g => calculateWaitingDGVI de g gviMonth
      | none => 0
    else 0)).sum

/-- `RoutingEngine.generateBusCandidates`: find nearby sites, batch-load
departures, correlate direct routes, keep the 5 earliest arrivals, attach
waiting DGVI, score, and keep the top 2.  (The final visualization enrichment
only attaches geometry to bus-ride segments and is omitted.) -/
def generateBusCandidates (pe : PathEnv) (de : DgviEnv) (se : SLEnv) (ste : SitesEnv)
    (origin destination : Point) (now : ℚ) (gviMonth : String) (p : Preferences) :
    List RoutePlan :=
  let originSites := ste.nearbySites origin
  let destSites := ste.nearbySites destination
  if originSites.isEmpty ∨ destSites.isEmpty then []
  else
    let cache := getBatchDepartures se
      (originSites.map Site.siteId ++ destSites.map Site.siteId) 1200
    let directRoutes := findDirectRoutes pe ste.stopPoints originSites destSites
      now 3600 gviMonth cache p
    let top5 := (sortLe (fun a b =>
      decide (getRouteArrivalTime now a ≤ getRouteArrivalTime now b)) directRoutes).take 5
    let withDgvi := top5.map (fun r => { r with totalAcDGVI := waitingDgviOfRoute de r gviMonth })
    (scoreBusRoutes withDgvi p).take 2

/-- The walking-candidate list of `generateWalkingCandidates`, in strategy
priority order: user preference, then ASAP `{time: 1, green: 0}`, then GROOT
`{time: 0, green: 1}`.  A failed path solve drops that strategy; each
surviving candidate gets its end-to-end route DGVI. -/
def walkingCandidates (pe : PathEnv) (de : DgviEnv) (origin destination : Point)
    (gviMonth : String) (p : Preferences) : List RoutePlan :=
  [p, ⟨1, 0⟩, ⟨0, 1⟩].filterMap (fun sp =>
    (calculateWalkingRoute pe origin destination gviMonth sp).map (fun route =>
      { route with totalAcDGVI := calculateRouteDGVI de route gviMonth }))

/-- `RoutingEngine.generateWalkingCandidates`: deduplicate the strategy
candidates by fingerprint and keep at most the first two. -/
def generateWalkingCandidates (pe : PathEnv) (de : DgviEnv) (origin destination : Point)
    (gviMonth : String) (p : Preferences) : List RoutePlan :=
  (deduplicateRoutes (walkingCandidates pe de origin destination gviMonth p)).take 2

/-- The options record accepted by `planRoutes`; `maxResults` is destructured
with default 4 but never read afterwards. -/
structure PlanningOptions where
  gviMonth : String
  preferences : Preferences
  maxResults : ℕ
deriving DecidableEq

/-- `RoutingEngine.planRoutes`: up to two walking routes followed by up to two
bus routes (the trailing `.filter(r => r !== null)` keeps every element, since
neither generator stores `null` entries). -/
def planRoutes (pe : PathEnv) (de : DgviEnv) (se : SLEnv) (ste : SitesEnv)
    (origin destination : Point) (now : ℚ) (opts : PlanningOptions) : List RoutePlan :=
  (generateWalkingCandidates pe de origin destination opts.gviMonth opts.preferences).take 2
    ++ (generateBusCandidates pe de se ste origin destination now opts.gviMonth
        opts.preferences).take 2

/-! ## One-transfer search (`findTransferRoutes`, `findTransferChainCached`,
`createTransferRoutePlan`, `RoutePlan.createTransferRoute`)

The transfer-assembly path reads fields that are absent on the
`{ site_id, stop_name }` record built in `findTransferChainCached`, so its
arithmetic runs on `undefined` and produces `NaN`.  The numbers of this
component are therefore modelled with the NaN-aware type `JsNum`. -/

/-- A JavaScript number of the transfer path: either `NaN` or a rational. -/
inductive JsNum
  | nan
  | num (q : ℚ)
deriving DecidableEq

/-- Addition; `NaN` propagates. -/
def JsNum.add : JsNum → JsNum → JsNum
  | num a, num b => num (a + b)
  | _, _ => nan

/-- Subtraction; `NaN` propagates. -/
def JsNum.sub : JsNum → JsNum → JsNum
  | num a, num b => num (a - b)
  | _, _ => nan

/-- Division; `NaN` propagates (the divisors of this component are the nonzero
constants 1.4 and 1000). -/
def JsNum.div : JsNum → JsNum → JsNum
  | num a, num b => num (a / b)
  | _, _ => nan

/-- `Math.max`: returns `NaN` when either argument is `NaN`. -/
def JsNum.jsMax : JsNum → JsNum → JsNum
  | num a, num b => num (max a b)
  | _, _ => nan

/-- The comparison `a > b`, which is `false` whenever `NaN` is involved. -/
def JsNum.gtb : JsNum → JsNum → Bool
  | num a, num b => decide (a > b)
  | _, _ => false

/-- The comparison `a <= b`, which is `false` whenever `NaN` is involved. -/
def JsNum.leb : JsNum → JsNum → Bool
  | num a, num b => decide (a ≤ b)
  | _, _ => false

/-- `Math.abs`; `NaN` propagates. -/
def JsNum.abs : JsNum → JsNum
  | num a => num |a|
  | nan => nan

/-- A row of the `sl_bus_trips` stop-sequence table. -/
structure TripsRow where
  line_id : ℤ
  direction_code : ℤ
  stop_point_id : ℤ
  next_stop_point_id : ℤ
deriving DecidableEq

/-- The row returned by `getNextStopDirect`. -/
structure NextStop where
  next_stop_point_id : ℤ
  next_site_id : Option ℤ
  next_name : String
deriving DecidableEq

/-- The stop-sequence database and the transcendental haversine kernel of
`calculateStopPointDistance` (supplied as an environment function, since the
claims only exercise the branch where a coordinate is absent). -/
structure TransferDb where
  trips : List TripsRow
  stopPoints : List StopPointRow
  hav : ℚ → ℚ → ℚ → ℚ → ℚ

/-- `RoutingEngine.getNextStopDirect`: the first `sl_bus_trips` row of the
(line, direction, stop) key joined with its next stop point (`LIMIT 1`); a
`null` line id (SQL `line_id = NULL`) matches no row. -/
def getNextStopDirect (db : TransferDb) (lineId : Option ℤ) (dir stopId : ℤ) :
    Option NextStop :=
  match lineId with
  | none => none
  | some lid =>
      ((db.trips.filter (fun r =>
          decide (r.line_id = lid) && decide (r.direction_code = dir)
            && decide (r.stop_point_id = stopId))).filterMap
        (fun r => (getStopPointSite db.stopPoints r.next_stop_point_id).map
          (fun sp => NextStop.mk r.next_stop_point_id sp.site_id sp.stop_point_name))).head?

/-- One expansion level of the recursive `journey_path` CTE: the trips rows
rooted at the frontier stops, joined with the stop point of their successor
(rows whose successor has no stop-point row leave the recursion). -/
def journeyStep (db : TransferDb) (lid dir : ℤ) (frontier : List ℤ) :
    List (TripsRow × StopPointRow) :=
  (db.trips.filter (fun r =>
      decide (r.line_id = lid) && decide (r.direction_code = dir)
        && frontier.contains r.stop_point_id)).filterMap
    (fun r => (getStopPointSite db.stopPoints r.next_stop_point_id).map (fun sp => (r, sp)))

/-- The site ids reached by the depth-bounded forward walk of the CTE
(`depth < 20` allows 20 expansion levels). -/
def collectSites (db : TransferDb) (lid dir : ℤ) : ℕ → List ℤ → List ℤ
  | 0, _ => []
  | fuel + 1, frontier =>
      let joined := journeyStep db lid dir frontier
      joined.filterMap (fun pr => pr.2.site_id)
        ++ collectSites db lid dir fuel (joined.map (fun pr => pr.1.next_stop_point_id))

/-- First-occurrence deduplication of integers (SQL `DISTINCT`). -/
def dedupIntsGo (seen : List ℤ) : List ℤ → List ℤ
  | [] => []
  | x :: rest => if x ∈ seen then dedupIntsGo seen rest else x :: dedupIntsGo (x :: seen) rest

/-- `RoutingEngine.checkJourneyDestinations`: the distinct destination site
ids among those reached within 20 hops of the stop sequence. -/
def checkJourneyDestinations (db : TransferDb) (lineId : Option ℤ) (dir stopId : ℤ)
    (destSiteIds : List ℤ) : List ℤ :=
  match lineId with
  | none => []
  | some lid =>
      dedupIntsGo [] ((collectSites db lid dir 20 [stopId]).filter
        (fun s => destSiteIds.contains s))

/-- The connection record emitted by `findConnectionsFromCachedDepartures`
(presentational fields omitted). -/
structure Connection where
  journeyId : ℤ
  lineId : Option ℤ
  departureTime : ℚ
  departureStopId : ℤ
  transferSiteId : Option ℤ
  destSite : Site
  directionCode : ℤ
deriving DecidableEq

/-- The inner `for (const destSiteId of reachableDestinations)` loop with its
`siteSeen` set: one connection per newly seen destination site that exists in
the destination-site list. -/
def siteConnGo (destinationSites : List Site) (journeyId : ℤ) (lineId : Option ℤ)
    (departureTime : ℚ) (departureStopId : ℤ) (transferSiteId : Option ℤ)
    (directionCode : ℤ) : List ℤ → List ℤ → List Connection
  | [], _ => []
  | d :: ds, seen =>
      if d ∈ seen then
        siteConnGo destinationSites journeyId lineId departureTime departureStopId
          transferSiteId directionCode ds seen
      else
        match destinationSites.find? (fun s => decide (s.siteId = d)) with
        | some s =>
            ⟨journeyId, lineId, departureTime, departureStopId, transferSiteId, s,
              directionCode⟩
              :: siteConnGo destinationSites journeyId lineId departureTime
                  departureStopId transferSiteId directionCode ds (d :: seen)
        | none =>
            siteConnGo destinationSites journeyId lineId departureTime departureStopId
              transferSiteId directionCode ds (d :: seen)

/-- The departure-scanning loop of `findConnectionsFromCachedDepartures`,
threading the `processedKeys` set of (stop point, direction) pairs. -/
def connGo (db : TransferDb) (destinationSites : List Site) (earliest : ℚ)
    (transferSiteId : Option ℤ) : List Departure → List (ℤ × ℤ) → List Connection →
    List Connection
  | [], _, acc => acc
  | dep :: rest, keys, acc =>
      if dep.expected < earliest then
        connGo db destinationSites earliest transferSiteId rest keys acc
      else
        match jsId dep.journey_id, jsId (dep.stop_point.map StopPointRef.id) with
        | some j, some spId =>
            if (spId, dep.direction_code) ∈ keys then
              connGo db destinationSites earliest transferSiteId rest keys acc
            else
              let reachable := checkJourneyDestinations db (dep.line.map LineInfo.id)
                dep.direction_code spId (destinationSites.map Site.siteId)
              connGo db destinationSites earliest transferSiteId rest
                ((spId, dep.direction_code) :: keys)
                (acc ++ siteConnGo destinationSites j (dep.line.map LineInfo.id)
                  dep.expected spId transferSiteId dep.direction_code reachable [])
        | _, _ => connGo db destinationSites earliest transferSiteId rest keys acc

/-- `RoutingEngine.findConnectionsFromCachedDepartures`: scan the first 10
cached departures, keep departures at/after the earliest transfer time, skip
duplicate (stop point, direction) keys, and return at most 5 connections. -/
def findConnectionsFromCachedDepartures (db : TransferDb) (destinationSites : List Site)
    (departures : List Departure) (earliest : ℚ) (transferSiteId : Option ℤ) :
    List Connection :=
  (connGo db destinationSites earliest transferSiteId (departures.take 10) [] []).take 5

/-- A query agent (`query_agent.js`): the virtual passenger created from one
origin departure. -/
structure QueryAgent where
  journeyId : ℤ
  lineId : Option ℤ
  directionCode : ℤ
  currentStopId : ℤ
  nominalTime : ℚ
  depExpectedTime : ℚ
  originSite : Site
  departureStopInfo : StopPointRow
deriving DecidableEq

/-- A transfer-route segment: type tag, intra-site-transfer marker, and the
(possibly `NaN`) duration. -/
structure SegmentJs where
  type : SegmentType
  intraSiteTransfer : Bool
  duration : JsNum
deriving DecidableEq

/-- A transfer-bus route plan as assembled by `RoutePlan.createTransferRoute`
(presentational fields omitted). -/
structure TransferPlanJs where
  segments : List SegmentJs
  totalDuration : JsNum
deriving DecidableEq

/-- `RoutingEngine.calculateStopPointDistance` over possibly-absent
coordinates: the trigonometric haversine kernel `hav` applies only when all
four coordinates exist; any `undefined` coordinate drives every intermediate
value to `NaN`. -/
def calculateStopPointDistance (hav : ℚ → ℚ → ℚ → ℚ → ℚ)
    (lat1 lon1 lat2 lon2 : Option ℚ) : JsNum :=
  match lat1, lon1, lat2, lon2 with
  | some a, some b, some c, some d => .num (hav a b c d)
  | _, _, _, _ => .nan

/-- `RoutePlan.createTransferRoute`: walk to the first stop (only when
`> 0`), first waiting (duration 0), first ride, optional intra-site transfer
walk (only when `> 0`), transfer waiting, second ride, and the final walk
(only when `> 0`); `NaN` durations fail every `> 0` guard. -/
def createTransferRoute (walkingToFirst firstBusRideDuration intraSiteWalk
    transferWaiting secondBusRideDuration walkingFromFinal totalDuration : JsNum) :
    TransferPlanJs :=
  ⟨(if walkingToFirst.gtb (.num 0) then [⟨.walking, false, walkingToFirst⟩] else [])
    ++ [⟨.bus_waiting, false, .num 0⟩, ⟨.bus_ride, false, firstBusRideDuration⟩]
    ++ (if intraSiteWalk.gtb (.num 0) then [⟨.walking, true, intraSiteWalk⟩] else [])
    ++ [⟨.bus_waiting, false, transferWaiting⟩, ⟨.bus_ride, false, secondBusRideDuration⟩]
    ++ (if walkingFromFinal.gtb (.num 0) then [⟨.walking, false, walkingFromFinal⟩] else []),
    totalDuration⟩

/-- `RoutingEngine.createTransferRoutePlan`: resolve the transfer-departure
stop point; compare its id against the `stop_point_id` of the transfer-arrival
record — which is the literal `{ site_id, stop_name }` built at the call site
and therefore has no `stop_point_id`, `lat` or `lon` (`undefined !== n` is
`true`, and the haversine of the absent coordinates is `NaN`); assemble the
timing and reject only when `totalDuration > maxDuration` (never satisfied by
`NaN`). -/
def createTransferRoutePlan (db : TransferDb) (agent : QueryAgent)
    (connection : Connection) (maxDuration transferArrivalTime : ℚ) :
    Option TransferPlanJs :=
  match getStopPointSite db.stopPoints connection.departureStopId with
  | none => none
  | some depStop =>
      let differentStops := jsStrictNeq none (some depStop.stop_point_id)
      let intraSiteDistance : JsNum :=
        if differentStops then
          calculateStopPointDistance db.hav none none (some depStop.lat) (some depStop.lon)
        else .num 0
      let intraSiteWalk : JsNum :=
        if differentStops then intraSiteDistance.div (.num walkingSpeed) else .num 0
      let walkingToFirst : JsNum := .num (agent.originSite.walkingDistance / walkingSpeed)
      let firstBusRide : JsNum := .num ((transferArrivalTime - agent.depExpectedTime) / 1000)
      let transferWaiting : JsNum :=
        JsNum.jsMax
          ((JsNum.num ((connection.departureTime - transferArrivalTime) / 1000)).sub
            intraSiteWalk)
          (.num 60)
      let secondBusRide : JsNum := .num 600
      let walkingFromFinal : JsNum :=
        .num (connection.destSite.walkingDistance / walkingSpeed)
      let totalDuration :=
        walkingToFirst.add (firstBusRide.add (intraSiteWalk.add
          (transferWaiting.add (secondBusRide.add walkingFromFinal))))
      if totalDuration.gtb (.num maxDuration) then none
      else
        some (createTransferRoute walkingToFirst firstBusRide intraSiteWalk
          transferWaiting secondBusRide walkingFromFinal totalDuration)

/-- The inner `for (const connection of connections.slice(0, 2))` loop of
`findTransferChainCached`: accept connections whose margin is at least 60 s,
append the created plan, and return early (`true`) once two plans exist. -/
def processConnections (db : TransferDb) (agent : QueryAgent)
    (maxDuration estimatedTime : ℚ) : List Connection → List TransferPlanJs →
    List TransferPlanJs × Bool
  | [], routes => (routes, false)
  | c :: cs, routes =>
      if (c.departureTime - estimatedTime) / 1000 ≥ 60 then
        match createTransferRoutePlan db agent c maxDuration estimatedTime with
        | some r =>
            if (routes ++ [r]).length ≥ 2 then (routes ++ [r], true)
            else processConnections db agent maxDuration estimatedTime cs (routes ++ [r])
        | none => processConnections db agent maxDuration estimatedTime cs routes
      else processConnections db agent maxDuration estimatedTime cs routes

/-- The hop loop of `findTransferChainCached` (`for stepCount < 10`): follow
the stop sequence, add the 90-second inter-stop estimate, stop when the time
budget is exhausted, scan the cached departures of the reached site, and
process at most two connections per hop. -/
def chainGo (db : TransferDb) (agent : QueryAgent) (destinationSites : List Site)
    (maxDuration : ℚ) (cache : List (ℤ × List Departure)) :
    ℕ → ℤ → ℚ → List TransferPlanJs → List TransferPlanJs
  | 0, _, _, routes => routes
  | fuel + 1, currentStopId, estimatedTime, routes =>
      match getNextStopDirect db agent.lineId agent.directionCode currentStopId with
      | none => routes
      | some nextStopInfo =>
          let estimated2 := estimatedTime + 90 * 1000
          let transferTime := estimated2 + 60 * 1000
          if (transferTime - agent.nominalTime) / 1000 > maxDuration then routes
          else
            let cachedDeps :=
              (nextStopInfo.next_site_id.bind (fun sid => mapLookup cache sid)).getD []
            let connections := findConnectionsFromCachedDepartures db destinationSites
              cachedDeps transferTime nextStopInfo.next_site_id
            let result := processConnections db agent maxDuration estimated2
              (connections.take 2) routes
            if result.2 then result.1
            else
              chainGo db agent destinationSites maxDuration cache fuel
                nextStopInfo.next_stop_point_id estimated2 result.1

/-- `RoutingEngine.findTransferChainCached`. -/
def findTransferChainCached (db : TransferDb) (agent : QueryAgent)
    (destinationSites : List Site) (maxDuration : ℚ)
    (cache : List (ℤ × List Departure)) : List TransferPlanJs :=
  chainGo db agent destinationSites maxDuration cache 10 agent.currentStopId
    agent.nominalTime []

/-- The number of forward hops (loop iterations with a successful next-stop
lookup) that `findTransferChainCached` performs; same control flow as
`chainGo`. -/
def chainHopsGo (db : TransferDb) (agent : QueryAgent) (destinationSites : List Site)
    (maxDuration : ℚ) (cache : List (ℤ × List Departure)) :
    ℕ → ℤ → ℚ → List TransferPlanJs → ℕ
  | 0, _, _, _ => 0
  | fuel + 1, currentStopId, estimatedTime, routes =>
      match getNextStopDirect db agent.lineId agent.directionCode currentStopId with
      | none => 0
      | some nextStopInfo =>
          let estimated2 := estimatedTime + 90 * 1000
          let transferTime := estimated2 + 60 * 1000
          if (transferTime - agent.nominalTime) / 1000 > maxDuration then 1
          else
            let cachedDeps :=
              (nextStopInfo.next_site_id.bind (fun sid => mapLookup cache sid)).getD []
            let connections := findConnectionsFromCachedDepartures db destinationSites
              cachedDeps transferTime nextStopInfo.next_site_id
            let result := processConnections db agent maxDuration estimated2
              (connections.take 2) routes
            if result.2 then 1
            else
              chainHopsGo db agent destinationSites maxDuration cache fuel
                  nextStopInfo.next_stop_point_id estimated2 result.1 + 1

/-- Hop count of a full `findTransferChainCached` run. -/
def chainHops (db : TransferDb) (agent : QueryAgent) (destinationSites : List Site)
    (maxDuration : ℚ) (cache : List (ℤ × List Departure)) : ℕ :=
  chainHopsGo db agent destinationSites maxDuration cache 10 agent.currentStopId
    agent.nominalTime []

/-- Agent creation of `findTransferRoutes`: for every origin site, at most the
first 10 cached departures with truthy journey and stop-point ids and a
resolvable departure stop point become agents. -/
def buildAgents (stopPoints : List StopPointRow) (originSites : List Site)
    (cache : List (ℤ × List Departure)) : List QueryAgent :=
  (siteDeparturesMap originSites cache).foldl
    (fun acc entry =>
      acc ++ (entry.2.take 10).filterMap (fun dep =>
        match jsId dep.journey_id, jsId (dep.stop_point.map StopPointRef.id) with
        | some j, some spId =>
            match originSites.find? (fun s => decide (s.siteId = entry.1)) with
            | none => none
            | some originSite =>
                (getStopPointSite stopPoints spId).map (fun depStop =>
                  ⟨j, dep.line.map LineInfo.id, dep.direction_code, spId, dep.expected,
                    dep.expected, originSite, depStop⟩)
        | _, _ => none))
    []

/-- The agent loop of `findTransferRoutes`: append each agent's transfer
routes and break once at least 20 routes have accumulated — the check runs
only after the whole batch of an agent has been appended. -/
def transferLoopGo (db : TransferDb) (destinationSites : List Site) (maxDuration : ℚ)
    (cache : List (ℤ × List Departure)) : List QueryAgent → List TransferPlanJs →
    List TransferPlanJs
  | [], acc => acc
  | a :: rest, acc =>
      let acc2 := acc ++ findTransferChainCached db a destinationSites maxDuration cache
      if acc2.length ≥ 20 then acc2
      else transferLoopGo db destinationSites maxDuration cache rest acc2

/-- `RoutingEngine.findTransferRoutes`. -/
def findTransferRoutes (db : TransferDb) (originSites destinationSites : List Site)
    (maxDuration : ℚ) (cache : List (ℤ × List Departure)) : List TransferPlanJs :=
  transferLoopGo db destinationSites maxDuration cache
    (buildAgents db.stopPoints originSites cache) []

/-- Sum of the (possibly `NaN`) segment durations of a transfer plan. -/
def sumDurationsJs (p : TransferPlanJs) : JsNum :=
  p.segments.foldl (fun a s => a.add s.duration) (.num 0)

/-- The 1-second duration-consistency tolerance check
`|sum(segment.duration) - total_duration| <= 1`, evaluated with JavaScript
comparison semantics (`false` on `NaN`). -/
def durationWithinOneSecond (p : TransferPlanJs) : Bool :=
  ((sumDurationsJs p).sub p.totalDuration).abs.leb (.num 1)

/-! ## Concrete evaluation data

A small world used to evaluate the embedded functions at concrete inputs: one
first-leg bus line (id 1, direction 1), eleven origin departures spread over
two origin sites, two transfer sites whose cached departures reach the single
destination site 500 via the second-leg lines 2, 3 and 4. -/

/-- The single origin departure of site 200 (stop point 21). -/
def cexDepB : Departure := ⟨some 100, some ⟨1, "1", "BUS"⟩, 1, some ⟨21, "B1"⟩, 0, "X"⟩

/-- The ten origin departures of site 100 (stop points 11–20, journeys 1–10). -/
def cexDepA (j : ℤ) : Departure :=
  ⟨some j, some ⟨1, "1", "BUS"⟩, 1, some ⟨10 + j, "A"⟩, 0, "X"⟩

/-- A transfer departure at site 300 on line 2 (stop point 31). -/
def cexConnDep1 : Departure := ⟨some 71, some ⟨2, "2", "BUS"⟩, 1, some ⟨31, "P1"⟩, 200000, "D"⟩

/-- A transfer departure at site 300 on line 3 (stop point 32). -/
def cexConnDep2 : Departure := ⟨some 72, some ⟨3, "3", "BUS"⟩, 1, some ⟨32, "P2"⟩, 210000, "D"⟩

/-- The only transfer departure at site 400 on line 4 (stop point 33). -/
def cexConnDep3 : Departure := ⟨some 73, some ⟨4, "4", "BUS"⟩, 1, some ⟨33, "P3"⟩, 200000, "D"⟩

/-- The batch-departure cache of the concrete world. -/
def cexCache : List (ℤ × List Departure) :=
  [(200, [cexDepB]),
   (100, [cexDepA 1, cexDepA 2, cexDepA 3, cexDepA 4, cexDepA 5,
          cexDepA 6, cexDepA 7, cexDepA 8, cexDepA 9, cexDepA 10]),
   (300, [cexConnDep1, cexConnDep2]),
   (400, [cexConnDep3])]

/-- The stop-sequence table: stop 21 leads to stop 98 (site 400), stops 11–20
lead to stop 99 (site 300), and the second-leg lines reach the destination
stops 41–43 (site 500). -/
def cexTrips : List TripsRow :=
  [⟨1, 1, 21, 98⟩,
   ⟨1, 1, 11, 99⟩, ⟨1, 1, 12, 99⟩, ⟨1, 1, 13, 99⟩, ⟨1, 1, 14, 99⟩, ⟨1, 1, 15, 99⟩,
   ⟨1, 1, 16, 99⟩, ⟨1, 1, 17, 99⟩, ⟨1, 1, 18, 99⟩, ⟨1, 1, 19, 99⟩, ⟨1, 1, 20, 99⟩,
   ⟨2, 1, 31, 41⟩, ⟨3, 1, 32, 42⟩, ⟨4, 1, 33, 43⟩]

/-- The stop-point table of the concrete world. -/
def cexStopPoints : List StopPointRow :=
  [⟨21, some 200, "B1", 0, 0⟩,
   ⟨11, some 100, "A1", 0, 0⟩, ⟨12, some 100, "A2", 0, 0⟩, ⟨13, some 100, "A3", 0, 0⟩,
   ⟨14, some 100, "A4", 0, 0⟩, ⟨15, some 100, "A5", 0, 0⟩, ⟨16, some 100, "A6", 0, 0⟩,
   ⟨17, some 100, "A7", 0, 0⟩, ⟨18, some 100, "A8", 0, 0⟩, ⟨19, some 100, "A9", 0, 0⟩,
   ⟨20, some 100, "A10", 0, 0⟩,
   ⟨98, some 400, "T4", 0, 0⟩, ⟨99, some 300, "T3", 0, 0⟩,
   ⟨31, some 300, "P1", 0, 0⟩, ⟨32, some 300, "P2", 0, 0⟩, ⟨33, some 400, "P3", 0, 0⟩,
   ⟨41, some 500, "D1", 0, 0⟩, ⟨42, some 500, "D2", 0, 0⟩, ⟨43, some 500, "D3", 0, 0⟩]

/-- The stop-sequence database of the concrete world; the haversine kernel is
immaterial (the exercised branch never reaches it). -/
def cexDb : TransferDb := ⟨cexTrips, cexStopPoints, fun _ _ _ _ => 0⟩

/-- Origin sites: site 200 (one departure) first, then site 100 (ten
departures). -/
def cexOriginSites : List Site := [⟨200, 0, 0, 0⟩, ⟨100, 0, 0, 0⟩]

/-- The single destination site. -/
def cexDestSites : List Site := [⟨500, 0, 0, 0⟩]

/-- The query agent created from the site-200 departure. -/
def cexAgentB : QueryAgent := ⟨100, some 1, 1, 21, 0, 0, ⟨200, 0, 0, 0⟩, ⟨21, some 200, "B1", 0, 0⟩⟩

/-- The connection found for that agent at transfer site 400. -/
def cexConnB : Connection := ⟨73, some 4, 200000, 33, some 400, ⟨500, 0, 0, 0⟩, 1⟩

/-- A bus departure used by the batch-departures evaluation. -/
def cexBusDep : Departure := ⟨some 1, some ⟨5, "5", "BUS"⟩, 1, some ⟨7, "S"⟩, 0, "D"⟩

/-- A transit-feed environment in which site 1 fails and every other site
answers with one bus departure. -/
def cexSLEnv : SLEnv :=
  ⟨fun s _ => if s = 1 then .error "down" else .ok ⟨200, some [cexBusDep]⟩⟩

/-- A path-solver environment in which every point resolves to vertex 1 and
Dijkstra delivers no path rows. -/
def cexPathEnv : PathEnv := ⟨fun _ => some 1, fun _ _ _ _ _ => [], fun _ => ""⟩

/-- A bus route candidate used by the scoring evaluation. -/
def cexBusRoute : RoutePlan := ⟨.direct_bus, [], 100, 0, 0, 0, 0⟩

/-- The state reached by the rebuild for road `r`: the table has a
(road, month) row for it, and every such row carries the freshly computed
dgvi. -/
def ValueSet (s : ℤ → ℚ) (m : String) (t : List DgviRow) (r : ℤ) : Prop :=
  (∃ row ∈ t, rowMatches r m row) ∧ ∀ row ∈ t, rowMatches r m row → row.dgvi = s r

/-! ## Theorems -/

/-- C1 (counterexample): an edge of length 5 with no matched GVI point has
DGVI −5, not 0 — the synthesized endpoints carry gvi 0, so the single interval
contributes `1 · L · (0 − 1) = −L`. -/
theorem segmentDGVI_no_points_counterexample :
    calculateSegmentDGVI 5 [] = -5 ∧ calculateSegmentDGVI 5 [] ≠ 0 := by
  norm_num [calculateSegmentDGVI, pointsWithEndpoints, sortByPosition, sortLe, insertLe,
    intervalSum]

/-- C1 (amended): for every road edge of length `L` and every month, when no
GVI point of that month lies within the 1-meter buffer of the edge, the
per-edge DGVI computation returns `−L` (the negated edge length), which is 0
exactly when the edge length is 0. -/
theorem segmentDGVI_no_points (L : ℚ) :
    calculateSegmentDGVI L [] = -L := by
  simp [calculateSegmentDGVI, pointsWithEndpoints, sortByPosition, sortLe, insertLe,
    intervalSum]

/-- C2 (counterexample): scoring a single surviving candidate with the default
preferences `{time: 0.5, green: 0.5}` assigns `totalScore = 0.5`, not 1. -/
theorem scoreBusRoutes_single_counterexample :
    (scoreBusRoutes [cexBusRoute] ⟨1/2, 1/2⟩).map RoutePlan.totalScore = [1/2] ∧
    (scoreBusRoutes [cexBusRoute] ⟨1/2, 1/2⟩).map RoutePlan.totalScore ≠ [1] := by
  norm_num [scoreBusRoutes, cexBusRoute, sortLe, insertLe, timeNormOf, dgviNormOf,
    listMin, listMax]

/-- C2 (amended): with exactly one surviving candidate, scoring assigns it
`timeNorm = 0` and `dgviNorm = 0` (hence `durationScore = 1` and
`acDGVIScore = 0`), and `totalScore = 1 − w_green` — equal to 1 only when the
green weight is 0. -/
theorem scoreBusRoutes_single (r : RoutePlan) (p : Preferences) :
    timeNormOf [r] r = 0 ∧ dgviNormOf [r] r = 0 ∧
    scoreBusRoutes [r] p =
      [{ r with durationScore := 1, acDGVIScore := 0, totalScore := 1 - p.green }] := by
  refine ⟨?_, ?_, ?_⟩
  · simp [timeNormOf, listMin, listMax]
  · simp [dgviNormOf, listMin, listMax]
  · simp [scoreBusRoutes, sortLe, insertLe, timeNormOf, dgviNormOf, listMin, listMax]

/-- C10: `getDepartures` is independent of its `forecastLimit` argument — the
upstream request always uses the fixed 1200-second forecast window, so any two
calls for the same site issue the same request and return the same bus-mode
departures. -/
theorem getDepartures_forecast_independent (env : SLEnv) (siteId : ℤ) (f₁ f₂ : ℕ) :
    departuresRequest siteId f₁ = departuresRequest siteId f₂ ∧
    getDepartures env siteId f₁ = getDepartures env siteId f₂ :=
  ⟨rfl, rfl⟩

/-- Unfolding lemma for `mapLookup` on a cons cell. -/
theorem mapLookup_cons {β : Type} (p : ℤ × β) (rest : List (ℤ × β)) (s : ℤ) :
    mapLookup (p :: rest) s = if p.1 = s then some p.2 else mapLookup rest s := by
  by_cases h : p.1 = s <;> simp [mapLookup, List.find?, h]

/-- Looking up the key just set by `mapSet` yields the new value. -/
theorem mapLookup_mapSet_self {β : Type} (mp : List (ℤ × β)) (k : ℤ) (v : β) :
    mapLookup (mapSet mp k v) k = some v := by
  induction mp with
  | nil => simp [mapSet, mapLookup_cons]
  | cons p rest ih =>
      by_cases h : p.1 = k
      · rw [mapSet, if_pos h, mapLookup_cons, if_pos rfl]
      · rw [mapSet, if_neg h, mapLookup_cons, if_neg h]
        exact ih

/-- `mapSet` does not disturb the lookup of any other key. -/
theorem mapLookup_mapSet_ne {β : Type} (mp : List (ℤ × β)) (k : ℤ) (v : β) (s : ℤ)
    (h : s ≠ k) : mapLookup (mapSet mp k v) s = mapLookup mp s := by
  induction mp with
  | nil => simp [mapSet, mapLookup, List.find?, Ne.symm h]
  | cons p rest ih =>
      by_cases hp : p.1 = k
      · rw [mapSet, if_pos hp, mapLookup_cons, mapLookup_cons, if_neg, if_neg]
        · rw [hp]; exact Ne.symm h
        · exact fun hh => (Ne.symm h) (hp ▸ hh)
      · rw [mapSet, if_neg hp, mapLookup_cons, mapLookup_cons]
        by_cases hs : p.1 = s
        · rw [if_pos hs, if_pos hs]
        · rw [if_neg hs, if_neg hs]
          exact ih

/-- Invariant of the batch-departures loop: once a site's entry is correct (or
the site is still queued), the final map holds its departures. -/
theorem getBatchDepartures_aux (env : SLEnv) (f : ℕ) (sites : List ℤ)
    (acc : List (ℤ × List Departure)) (s : ℤ)
    (h : mapLookup acc s = some (getDepartures env s f) ∨ s ∈ sites) :
    mapLookup
      (sites.foldl (fun results siteId => mapSet results siteId (getDepartures env siteId f)) acc)
      s = some (getDepartures env s f) := by
  induction sites generalizing acc with
  | nil =>
      rcases h with h | h
      · simpa using h
      · simp at h
  | cons a rest ih =>
      simp only [List.foldl_cons]
      rcases h with h | h
      · by_cases hs : s = a
        · exact ih _ (Or.inl (by rw [hs, mapLookup_mapSet_self]))
        · exact ih _ (Or.inl (by rw [mapLookup_mapSet_ne _ _ _ _ hs]; exact h))
      · rcases List.mem_cons.mp h with hs | hs
        · exact ih _ (Or.inl (by rw [hs, mapLookup_mapSet_self]))
        · exact ih _ (Or.inr hs)

/-- C6: `getBatchDepartures` never fails as a whole.  The empty input yields
the empty map; every requested site — in particular every failing one, whose
`getDepartures` call swallows the error and returns `[]` — still gets its own
entry in the returned map. -/
theorem getBatchDepartures_per_site (env : SLEnv) (siteIds : List ℤ) (f : ℕ) :
    getBatchDepartures env [] f = [] ∧
    (∀ s ∈ siteIds,
      mapLookup (getBatchDepartures env siteIds f) s = some (getDepartures env s f)) ∧
    (∀ s ∈ siteIds, (∃ e, env.fetchDepartures s 1200 = .error e) →
      mapLookup (getBatchDepartures env siteIds f) s = some []) := by
  refine ⟨rfl, ?_, ?_⟩
  · intro s hs
    exact getBatchDepartures_aux env f siteIds [] s (Or.inr hs)
  · intro s hs he
    have h := getBatchDepartures_aux env f siteIds [] s (Or.inr hs)
    obtain ⟨e, he⟩ := he
    have hdep : getDepartures env s f = [] := by
      unfold getDepartures
      simp [departuresRequest, he]
    rw [getBatchDepartures, h, hdep]

/-- C6 (witness): with site 1 failing and site 2 healthy, the batch over
`[1, 2]` maps site 1 to `[]` and still returns site 2's departures. -/
theorem getBatchDepartures_per_site_witness :
    mapLookup (getBatchDepartures cexSLEnv [1, 2] 999) 1 = some [] ∧
    mapLookup (getBatchDepartures cexSLEnv [1, 2] 999) 2
      = some (getDepartures cexSLEnv 2 999) :=
  ⟨(getBatchDepartures_per_site cexSLEnv [1, 2] 999).2.2 1 (by simp)
      ⟨"down", by simp [cexSLEnv]⟩,
    (getBatchDepartures_per_site cexSLEnv [1, 2] 999).2.1 2 (by simp)⟩

/-- C7: when both query points resolve to the same nearest graph vertex (so
that Dijkstra delivers no path row), `calculateWalkingSegment` returns the
zero record with an empty edge-id list, and `calculateWalkingRoute` returns a
plan whose single walking segment has an empty edge-id list, zero distance and
zero total duration. -/
theorem pathSolver_equal_endpoints (env : PathEnv) (o d : Point) (p : Preferences)
    (m : String) (v : ℤ) (h₁ : env.nearestVertex o = some v)
    (h₂ : env.nearestVertex d = some v)
    (hd : ∀ w g mo, env.dijkstraEdges w g mo v v = []) :
    calculateWalkingSegment env o d p m = ⟨0, 0, [], none⟩ ∧
    ∃ plan, calculateWalkingRoute env o d m p = some plan ∧
      plan.totalDuration = 0 ∧ plan.segments.map Segment.roadIds = [some []] ∧
      plan.segments.map Segment.distance = [0] := by
  constructor
  · unfold calculateWalkingSegment
    rw [h₁, h₂]
    simp [hd]
  · refine ⟨RoutePlan.createWalkingRoute 0 none none, ?_, ?_, ?_, ?_⟩
    · unfold calculateWalkingRoute
      rw [h₁, h₂]
      simp [hd]
    · rfl
    · simp [RoutePlan.createWalkingRoute, createWalkingSegment]
    · simp [RoutePlan.createWalkingRoute, createWalkingSegment]

/-- C7 (witness): the equal-endpoint conclusion evaluated in the concrete
path environment where every point resolves to vertex 1 and Dijkstra returns
no rows. -/
theorem pathSolver_equal_endpoints_witness :
    calculateWalkingSegment cexPathEnv ⟨0, 0⟩ ⟨1, 1⟩ ⟨1, 0⟩ "2025-08" = ⟨0, 0, [], none⟩ ∧
    ∃ plan, calculateWalkingRoute cexPathEnv ⟨0, 0⟩ ⟨1, 1⟩ "2025-08" ⟨1, 0⟩ = some plan ∧
      plan.totalDuration = 0 ∧ plan.segments.map Segment.roadIds = [some []] ∧
      plan.segments.map Segment.distance = [0] :=
  pathSolver_equal_endpoints cexPathEnv ⟨0, 0⟩ ⟨1, 1⟩ ⟨1, 0⟩ "2025-08" 1 rfl rfl
    (fun _ _ _ => rfl)

/-- Every list produced by `dedupGo` is a sublist of its input. -/
theorem dedupGo_sublist (l : List RoutePlan) : ∀ seen, (dedupGo seen l).Sublist l := by
  induction l with
  | nil => intro seen; simp [dedupGo]
  | cons r rest ih =>
      intro seen
      by_cases h : fingerprint r ∈ seen
      · simp only [dedupGo, if_pos h]
        exact (ih seen).cons r
      · simp only [dedupGo, if_neg h]
        exact (ih (fingerprint r :: seen)).cons₂ r

/-- No route kept by `dedupGo` carries a fingerprint from the `seen` set. -/
theorem dedupGo_not_seen (l : List RoutePlan) :
    ∀ seen, ∀ r ∈ dedupGo seen l, fingerprint r ∉ seen := by
  induction l with
  | nil => intro seen r hr; simp [dedupGo] at hr
  | cons a rest ih =>
      intro seen r hr
      by_cases h : fingerprint a ∈ seen
      · rw [dedupGo, if_pos h] at hr
        exact ih seen r hr
      · rw [dedupGo, if_neg h] at hr
        rcases List.mem_cons.mp hr with hr | hr
        · rw [hr]; exact h
        · exact fun hmem => ih _ r hr (List.mem_cons_of_mem _ hmem)

/-- The routes kept by `dedupGo` have pairwise distinct fingerprints. -/
theorem dedupGo_pairwise (l : List RoutePlan) :
    ∀ seen, (dedupGo seen l).Pairwise (fun a b => fingerprint a ≠ fingerprint b) := by
  induction l with
  | nil => intro seen; simp [dedupGo]
  | cons a rest ih =>
      intro seen
      by_cases h : fingerprint a ∈ seen
      · rw [dedupGo, if_pos h]; exact ih seen
      · rw [dedupGo, if_neg h]
        refine List.Pairwise.cons ?_ (ih _)
        intro b hb
        have := dedupGo_not_seen rest _ b hb
        exact fun he => this (by rw [← he]; exact List.mem_cons_self _ _)

/-- C5: the walking candidates that `generateWalkingCandidates` returns have
pairwise distinct sorted edge-id fingerprints, they are (in order) a sublist
of the strategy-priority candidate list user → ASAP → GROOT, at most two are
returned, and they are exactly the first two survivors of the fingerprint
deduplication. -/
theorem walking_dedup_and_priority (pe : PathEnv) (de : DgviEnv) (o d : Point)
    (m : String) (p : Preferences) :
    (generateWalkingCandidates pe de o d m p).Pairwise
      (fun a b => fingerprint a ≠ fingerprint b) ∧
    (generateWalkingCandidates pe de o d m p).Sublist (walkingCandidates pe de o d m p) ∧
    (generateWalkingCandidates pe de o d m p).length ≤ 2 ∧
    generateWalkingCandidates pe de o d m p =
      (deduplicateRoutes (walkingCandidates pe de o d m p)).take 2 := by
  refine ⟨?_, ?_, ?_, rfl⟩
  · exact (dedupGo_pairwise _ []).sublist (List.take_sublist _ _)
  · exact (List.take_sublist _ _).trans (dedupGo_sublist _ [])
  · exact List.length_take_le _ _

/-- Membership in an insertion step of the sort. -/
theorem mem_insertLe {α : Type} (le : α → α → Bool) (a x : α) (l : List α) :
    x ∈ insertLe le a l ↔ x = a ∨ x ∈ l := by
  induction l with
  | nil => simp [insertLe]
  | cons b rest ih =>
      by_cases h : le a b
      · simp [insertLe, h]
      · simp [insertLe, h, ih]
        tauto

/-- The sort keeps exactly the input elements. -/
theorem mem_sortLe {α : Type} (le : α → α → Bool) (x : α) (l : List α) :
    x ∈ sortLe le l ↔ x ∈ l := by
  induction l with
  | nil => simp [sortLe]
  | cons a rest ih => simp [sortLe, mem_insertLe, ih]

/-- Every plan delivered by `calculateWalkingRoute` is a walking route. -/
theorem calculateWalkingRoute_routeType (pe : PathEnv) (o d : Point) (m : String)
    (sp : Preferences) (route : RoutePlan)
    (h : calculateWalkingRoute pe o d m sp = some route) : route.routeType = .walking := by
  unfold calculateWalkingRoute at h
  split at h
  · injection h with h2
    rw [← h2]
    rfl
  · exact Option.noConfusion h

/-- Every route of the walking-candidate list is a walking route. -/
theorem walkingCandidates_types (pe : PathEnv) (de : DgviEnv) (o d : Point)
    (m : String) (p : Preferences) :
    ∀ r ∈ walkingCandidates pe de o d m p, r.routeType = .walking := by
  intro r hr
  unfold walkingCandidates at hr
  obtain ⟨sp, _, heq⟩ := List.mem_filterMap.mp hr
  obtain ⟨route, hroute, hmap⟩ := Option.map_eq_some'.mp heq
  rw [← hmap]
  exact calculateWalkingRoute_routeType pe o d m sp route hroute

/-- Every plan assembled by `buildDirectRoute` is a direct-bus route. -/
theorem buildDirectRoute_routeType (pe : PathEnv) (sps : List StopPointRow)
    (os ds : List Site) (t md : ℚ) (m : String) (p : Preferences)
    (dj : List (ℤ × DestJourneyInfo)) (j : ℤ) (di : OriginJourneyInfo) (r : RoutePlan)
    (h : buildDirectRoute pe sps os ds t md m p dj j di = some r) :
    r.routeType = .direct_bus := by
  unfold buildDirectRoute at h
  dsimp only at h
  repeat' split at h
  all_goals first
    | exact Option.noConfusion h
    | (injection h with h2; rw [← h2]; rfl)

/-- Every route delivered by `findDirectRoutes` is a direct-bus route. -/
theorem findDirectRoutes_routeType (pe : PathEnv) (sps : List StopPointRow)
    (os ds : List Site) (t md : ℚ) (m : String)
    (cache : List (ℤ × List Departure)) (p : Preferences) :
    ∀ r ∈ findDirectRoutes pe sps os ds t md m cache p, r.routeType = .direct_bus := by
  intro r hr
  unfold findDirectRoutes at hr
  obtain ⟨entry, _, heq⟩ := List.mem_filterMap.mp hr
  exact buildDirectRoute_routeType pe sps os ds t md m p _ entry.1 entry.2 r heq

/-- Scoring keeps the route type of some input route. -/
theorem mem_scoreBusRoutes (routes : List RoutePlan) (p : Preferences) (r : RoutePlan)
    (h : r ∈ scoreBusRoutes routes p) : ∃ r₀ ∈ routes, r.routeType = r₀.routeType := by
  cases routes with
  | nil => simp [scoreBusRoutes] at h
  | cons a rest =>
      rw [scoreBusRoutes, mem_sortLe] at h
      obtain ⟨r₀, hr₀, heq⟩ := List.mem_map.mp h
      exact ⟨r₀, hr₀, by rw [← heq]⟩

/-- `generateBusCandidates` returns at most two routes, all of them
direct-bus. -/
theorem generateBusCandidates_spec (pe : PathEnv) (de : DgviEnv) (se : SLEnv)
    (ste : SitesEnv) (o d : Point) (now : ℚ) (m : String) (p : Preferences) :
    (generateBusCandidates pe de se ste o d now m p).length ≤ 2 ∧
    ∀ r ∈ generateBusCandidates pe de se ste o d now m p, r.routeType = .direct_bus := by
  unfold generateBusCandidates
  dsimp only
  split
  · simp
  · refine ⟨List.length_take_le _ _, ?_⟩
    intro r hr
    have hr2 := (List.take_sublist _ _).subset hr
    obtain ⟨r₀, hr₀, htype⟩ := mem_scoreBusRoutes _ p r hr2
    obtain ⟨r₁, hr₁, hmap⟩ := List.mem_map.mp hr₀
    have hr₁2 := (List.take_sublist _ _).subset hr₁
    rw [mem_sortLe] at hr₁2
    have := findDirectRoutes_routeType pe ste.stopPoints _ _ now 3600 m _ p r₁ hr₁2
    rw [htype, ← hmap]
    exact this

/-- C9: `planRoutes` returns at most 4 routes — at most 2 walking and at most
2 bus — and its result does not depend on the `maxResults` option. -/
theorem planRoutes_bounds (pe : PathEnv) (de : DgviEnv) (se : SLEnv) (ste : SitesEnv)
    (o d : Point) (now : ℚ) (m : String) (p : Preferences) (k : ℕ) :
    (planRoutes pe de se ste o d now ⟨m, p, k⟩).length ≤ 4 ∧
    ((planRoutes pe de se ste o d now ⟨m, p, k⟩).filter
      (fun r => decide (r.routeType = .walking))).length ≤ 2 ∧
    ((planRoutes pe de se ste o d now ⟨m, p, k⟩).filter
      (fun r => decide (r.routeType ≠ .walking))).length ≤ 2 ∧
    ∀ k₁ k₂ : ℕ,
      planRoutes pe de se ste o d now ⟨m, p, k₁⟩ = planRoutes pe de se ste o d now ⟨m, p, k₂⟩ := by
  have hw : ∀ r ∈ (generateWalkingCandidates pe de o d m p).take 2,
      r.routeType = .walking := by
    intro r hr
    have hr2 := (List.take_sublist _ _).subset hr
    have hr3 := ((List.take_sublist _ _).trans (dedupGo_sublist _ [])).subset hr2
    exact walkingCandidates_types pe de o d m p r hr3
  have hb : ∀ r ∈ (generateBusCandidates pe de se ste o d now m p).take 2,
      r.routeType = .direct_bus := by
    intro r hr
    exact (generateBusCandidates_spec pe de se ste o d now m p).2 r
      ((List.take_sublist _ _).subset hr)
  refine ⟨?_, ?_, ?_, fun k₁ k₂ => rfl⟩
  · rw [planRoutes, List.length_append]
    dsimp only
    have h1 := List.length_take_le 2 (generateWalkingCandidates pe de o d m p)
    have h2 := List.length_take_le 2 (generateBusCandidates pe de se ste o d now m p)
    omega
  · rw [planRoutes, List.filter_append]
    dsimp only
    have hempty : (List.filter (fun r => decide (r.routeType = RouteType.walking))
        ((generateBusCandidates pe de se ste o d now m p).take 2)) = [] := by
      apply List.filter_eq_nil_iff.mpr
      intro r hr
      simp [hb r hr]
    rw [hempty, List.length_append]
    have := List.length_filter_le (fun r => decide (r.routeType = RouteType.walking))
      ((generateWalkingCandidates pe de o d m p).take 2)
    have h1 := List.length_take_le 2 (generateWalkingCandidates pe de o d m p)
    simp only [List.length_nil]
    omega
  · rw [planRoutes, List.filter_append]
    dsimp only
    have hempty : (List.filter (fun r => decide (r.routeType ≠ RouteType.walking))
        ((generateWalkingCandidates pe de o d m p).take 2)) = [] := by
      apply List.filter_eq_nil_iff.mpr
      intro r hr
      simp [hw r hr]
    rw [hempty, List.length_append]
    have := List.length_filter_le (fun r => decide (r.routeType ≠ RouteType.walking))
      ((generateBusCandidates pe de se ste o d now m p).take 2)
    have h2 := List.length_take_le 2 (generateBusCandidates pe de se ste o d now m p)
    simp only [List.length_nil]
    omega

/-- The hop counter never exceeds the remaining fuel. -/
theorem chainHopsGo_le_fuel (db : TransferDb) (agent : QueryAgent) (ds : List Site)
    (maxD : ℚ) (cache : List (ℤ × List Departure)) :
    ∀ fuel cur est routes, chainHopsGo db agent ds maxD cache fuel cur est routes ≤ fuel := by
  intro fuel
  induction fuel with
  | zero => intro cur est routes; rw [chainHopsGo]
  | succ f ih =>
      intro cur est routes
      rw [chainHopsGo]
      split
      · exact Nat.zero_le _
      · dsimp only
        split
        · omega
        · split
          · omega
          · exact Nat.succ_le_succ (ih _ _ _)

/-- The inner connection loop keeps at most 2 routes, and at most 1 when it
does not return early. -/
theorem processConnections_len (db : TransferDb) (agent : QueryAgent)
    (maxD est : ℚ) :
    ∀ cs routes, routes.length ≤ 1 →
      (processConnections db agent maxD est cs routes).1.length ≤ 2 ∧
      ((processConnections db agent maxD est cs routes).2 = false →
        (processConnections db agent maxD est cs routes).1.length ≤ 1) := by
  intro cs
  induction cs with
  | nil =>
      intro routes h
      rw [processConnections]
      dsimp only
      exact ⟨by omega, fun _ => h⟩
  | cons c cs ih =>
      intro routes h
      rw [processConnections]
      split
      · cases hplan : createTransferRoutePlan db agent c maxD est with
        | none => exact ih routes h
        | some r =>
            dsimp only
            split
            · refine ⟨?_, fun hfalse => by simp at hfalse⟩
              simp only [List.length_append, List.length_cons, List.length_nil]
              omega
            · rename_i hlen
              refine ih (routes ++ [r]) ?_
              simp only [List.length_append, List.length_cons, List.length_nil] at hlen ⊢
              omega
      · exact ih routes h

/-- The hop loop keeps at most 2 routes when entered with at most 1. -/
theorem chainGo_len (db : TransferDb) (agent : QueryAgent) (ds : List Site)
    (maxD : ℚ) (cache : List (ℤ × List Departure)) :
    ∀ fuel cur est routes, routes.length ≤ 1 →
      (chainGo db agent ds maxD cache fuel cur est routes).length ≤ 2 := by
  intro fuel
  induction fuel with
  | zero => intro cur est routes h; rw [chainGo]; omega
  | succ f ih =>
      intro cur est routes h
      rw [chainGo]
      split
      · omega
      · dsimp only
        split
        · omega
        · split
          · exact (processConnections_len db agent maxD _ _ _ h).1
          · rename_i hfalse
            rw [Bool.not_eq_true] at hfalse
            exact ih _ _ _ ((processConnections_len db agent maxD _ _ _ h).2 hfalse)

/-- The agent loop keeps at most 21 routes when entered with at most 19. -/
theorem transferLoopGo_len (db : TransferDb) (ds : List Site) (maxD : ℚ)
    (cache : List (ℤ × List Departure)) :
    ∀ agents acc, acc.length ≤ 19 →
      (transferLoopGo db ds maxD cache agents acc).length ≤ 21 := by
  intro agents
  induction agents with
  | nil => intro acc h; rw [transferLoopGo]; omega
  | cons a rest ih =>
      intro acc h
      rw [transferLoopGo]
      have hchain : (findTransferChainCached db a ds maxD cache).length ≤ 2 :=
        chainGo_len db a ds maxD cache 10 a.currentStopId a.nominalTime [] (by simp)
      split
      · simp only [List.length_append]
        omega
      · rename_i hlt
        simp only [List.length_append] at hlt
        exact ih _ (by simp only [List.length_append]; omega)

/-- C4 (amended): each query agent walks forward for at most 10 hops and
emits at most 2 transfer itineraries, and the search as a whole emits at most
21 itineraries — not 20: the global cut-off is checked only after a whole
agent batch (of up to 2) has been appended to a list that may already hold
19. -/
theorem transfer_search_bounds (db : TransferDb) (agent : QueryAgent)
    (originSites destinationSites : List Site) (maxD : ℚ)
    (cache : List (ℤ × List Departure)) :
    chainHops db agent destinationSites maxD cache ≤ 10 ∧
    (findTransferChainCached db agent destinationSites maxD cache).length ≤ 2 ∧
    (findTransferRoutes db originSites destinationSites maxD cache).length ≤ 21 := by
  refine ⟨?_, ?_, ?_⟩
  · exact chainHopsGo_le_fuel db agent destinationSites maxD cache 10 _ _ _
  · exact chainGo_len db agent destinationSites maxD cache 10 _ _ [] (by simp)
  · exact transferLoopGo_len db destinationSites maxD cache _ [] (by simp)

/-- C4 (counterexample): in the concrete world — eleven agents, the first
emitting one itinerary and the following ten emitting two each — the search
emits 21 transfer itineraries: the global cut-off fires only after an agent's
whole batch is appended, so a list of 19 still admits one more batch of 2. -/
theorem transfer_search_emits_21 :
    (findTransferRoutes cexDb cexOriginSites cexDestSites 3600 cexCache).length = 21 ∧
    ¬ (findTransferRoutes cexDb cexOriginSites cexDestSites 3600 cexCache).length ≤ 20 := by
  have h : (findTransferRoutes cexDb cexOriginSites cexDestSites 3600 cexCache).length = 21 := by
    norm_num [findTransferRoutes, transferLoopGo, buildAgents, siteDeparturesMap, mapSet,
      mapLookup, findTransferChainCached, chainGo, getNextStopDirect, getStopPointSite,
      findConnectionsFromCachedDepartures, connGo, siteConnGo, checkJourneyDestinations,
      collectSites, journeyStep, dedupIntsGo, processConnections, createTransferRoutePlan,
      createTransferRoute, calculateStopPointDistance, jsStrictNeq, jsId, JsNum.add,
      JsNum.sub, JsNum.div, JsNum.jsMax, JsNum.gtb, walkingSpeed, cexDb, cexTrips,
      cexStopPoints, cexOriginSites, cexDestSites, cexCache, cexDepA, cexDepB,
      cexConnDep1, cexConnDep2, cexConnDep3, List.find?]
  exact ⟨h, by omega⟩

/-- A left fold with `min` never exceeds its initial value. -/
theorem foldl_min_le_init (v : ℚ) (vs : List ℚ) : vs.foldl min v ≤ v := by
  induction vs generalizing v with
  | nil => exact le_refl v
  | cons a vs ih => exact le_trans (ih (min v a)) (min_le_left v a)

/-- A left fold with `min` is a lower bound of all folded values. -/
theorem foldl_min_le (v : ℚ) (vs : List ℚ) : ∀ x ∈ v :: vs, vs.foldl min v ≤ x := by
  induction vs generalizing v with
  | nil => intro x hx; rw [List.mem_singleton] at hx; rw [hx]; exact le_refl v
  | cons a vs ih =>
      intro x hx
      rcases List.mem_cons.mp hx with hx | hx
      · rw [hx]
        exact le_trans (foldl_min_le_init (min v a) vs) (min_le_left v a)
      · rcases List.mem_cons.mp hx with hx | hx
        · rw [hx]
          exact le_trans (foldl_min_le_init (min v a) vs) (min_le_right v a)
        · exact ih (min v a) x (List.mem_cons_of_mem _ hx)

/-- A left fold with `max` stays above its initial value. -/
theorem le_foldl_max_init (v : ℚ) (vs : List ℚ) : v ≤ vs.foldl max v := by
  induction vs generalizing v with
  | nil => exact le_refl v
  | cons a vs ih => exact le_trans (le_max_left v a) (ih (max v a))

/-- A left fold with `max` is an upper bound of all folded values. -/
theorem le_foldl_max (v : ℚ) (vs : List ℚ) : ∀ x ∈ v :: vs, x ≤ vs.foldl max v := by
  induction vs generalizing v with
  | nil => intro x hx; rw [List.mem_singleton] at hx; rw [hx]; exact le_refl v
  | cons a vs ih =>
      intro x hx
      rcases List.mem_cons.mp hx with hx | hx
      · rw [hx]
        exact le_trans (le_max_left v a) (le_foldl_max_init (max v a) vs)
      · rcases List.mem_cons.mp hx with hx | hx
        · rw [hx]
          exact le_trans (le_max_right v a) (le_foldl_max_init (max v a) vs)
        · exact ih (max v a) x (List.mem_cons_of_mem _ hx)

/-- `rowMatches` reads only the key fields. -/
theorem rowMatches_iff (r : ℤ) (m : String) (row : DgviRow) :
    rowMatches r m row = true ↔ row.road_id = r ∧ row.month = m := by
  simp [rowMatches]

/-- Upserting the freshly computed value establishes `ValueSet` for that
road. -/
theorem upsert_establishes (s : ℤ → ℚ) (m : String) (t : List DgviRow) (r : ℤ) :
    ValueSet s m (upsertDgvi t r m (s r)) r := by
  unfold upsertDgvi
  by_cases hany : t.any (rowMatches r m)
  · rw [if_pos hany]
    obtain ⟨row, hrow, hmatch⟩ := List.any_eq_true.mp hany
    constructor
    · refine ⟨if rowMatches r m row then { row with dgvi := s r } else row,
        List.mem_map_of_mem _ hrow, ?_⟩
      rw [if_pos hmatch]
      rw [rowMatches_iff] at hmatch ⊢
      exact hmatch
    · intro row' hrow' hmatch'
      obtain ⟨row₀, _, heq⟩ := List.mem_map.mp hrow'
      by_cases h₀ : rowMatches r m row₀
      · rw [if_pos h₀] at heq
        rw [← heq]
      · rw [if_neg h₀] at heq
        rw [← heq] at hmatch'
        exact absurd hmatch' h₀
  · rw [if_neg hany]
    constructor
    · exact ⟨⟨r, m, s r, none⟩, by simp, by simp [rowMatches]⟩
    · intro row hrow hmatch
      rcases List.mem_append.mp hrow with hrow | hrow
      · exact absurd (List.any_eq_true.mpr ⟨row, hrow, hmatch⟩) hany
      · rw [List.mem_singleton] at hrow
        rw [hrow]

/-- Upserting any road of the same month preserves `ValueSet` for an already
settled road. -/
theorem upsert_preserves (s : ℤ → ℚ) (m : String) (t : List DgviRow) (r r₂ : ℤ)
    (h : ValueSet s m t r) : ValueSet s m (upsertDgvi t r₂ m (s r₂)) r := by
  obtain ⟨⟨row, hrow, hmatch⟩, hall⟩ := h
  unfold upsertDgvi
  by_cases hany : t.any (rowMatches r₂ m)
  · rw [if_pos hany]
    constructor
    · refine ⟨if rowMatches r₂ m row then { row with dgvi := s r₂ } else row,
        List.mem_map_of_mem _ hrow, ?_⟩
      by_cases h₂ : rowMatches r₂ m row
      · rw [if_pos h₂]
        rw [rowMatches_iff] at hmatch ⊢
        exact hmatch
      · rw [if_neg h₂]
        exact hmatch
    · intro row' hrow' hmatch'
      obtain ⟨row₀, hrow₀, heq⟩ := List.mem_map.mp hrow'
      by_cases h₀ : rowMatches r₂ m row₀
      · rw [if_pos h₀] at heq
        have hkey : row'.road_id = r ∧ row'.month = m := (rowMatches_iff _ _ _).mp hmatch'
        have hkey₀ : row₀.road_id = r₂ ∧ row₀.month = m := (rowMatches_iff _ _ _).mp h₀
        have : r = r₂ := by
          rw [← hkey.1, ← heq]
          exact hkey₀.1
        rw [← heq, this]
      · rw [if_neg h₀] at heq
        rw [← heq] at hmatch' ⊢
        exact hall row₀ hrow₀ hmatch'
  · rw [if_neg hany]
    constructor
    · exact ⟨row, List.mem_append_left _ hrow, hmatch⟩
    · intro row' hrow' hmatch'
      rcases List.mem_append.mp hrow' with hrow' | hrow'
      · exact hall row' hrow' hmatch'
      · rw [List.mem_singleton] at hrow'
        have hkey : row'.road_id = r ∧ row'.month = m := (rowMatches_iff _ _ _).mp hmatch'
        have : r = r₂ := by rw [← hkey.1, hrow']
        rw [hrow', this]

/-- `ValueSet` survives the whole upsert fold. -/
theorem foldl_upsert_preserves (s : ℤ → ℚ) (m : String) (roads : List ℤ) :
    ∀ (t : List DgviRow) (r : ℤ), ValueSet s m t r →
      ValueSet s m (roads.foldl (fun acc r₀ => upsertDgvi acc r₀ m (s r₀)) t) r := by
  induction roads with
  | nil => intro t r h; exact h
  | cons a rest ih =>
      intro t r h
      exact ih _ r (upsert_preserves s m t r a h)

/-- After the upsert fold, every processed road is settled. -/
theorem foldl_upsert_establishes (s : ℤ → ℚ) (m : String) (roads : List ℤ) :
    ∀ (t : List DgviRow) (r : ℤ), r ∈ roads →
      ValueSet s m (roads.foldl (fun acc r₀ => upsertDgvi acc r₀ m (s r₀)) t) r := by
  induction roads with
  | nil => intro t r h; simp at h
  | cons a rest ih =>
      intro t r h
      rw [List.foldl_cons]
      rcases List.mem_cons.mp h with h | h
      · rw [h]
        exact foldl_upsert_preserves s m rest _ a (upsert_establishes s m t a)
      · exact ih _ r h

/-- A settled road's upsert leaves the table unchanged. -/
theorem upsert_noop (s : ℤ → ℚ) (m : String) (t : List DgviRow) (r : ℤ)
    (h : ValueSet s m t r) : upsertDgvi t r m (s r) = t := by
  obtain ⟨⟨row, hrow, hmatch⟩, hall⟩ := h
  unfold upsertDgvi
  rw [if_pos (List.any_eq_true.mpr ⟨row, hrow, hmatch⟩)]
  have : ∀ row₀ ∈ t, (if rowMatches r m row₀ then { row₀ with dgvi := s r } else row₀) = row₀ := by
    intro row₀ hrow₀
    by_cases h₀ : rowMatches r m row₀
    · rw [if_pos h₀]
      have := hall row₀ hrow₀ h₀
      cases row₀
      simp only at this
      simp [this]
    · rw [if_neg h₀]
  rw [List.map_congr_left this]
  simp

/-- When every road is already settled, the whole upsert fold is the
identity. -/
theorem foldl_upsert_noop (s : ℤ → ℚ) (m : String) (roads : List ℤ) :
    ∀ (t : List DgviRow), (∀ r ∈ roads, ValueSet s m t r) →
      roads.foldl (fun acc r₀ => upsertDgvi acc r₀ m (s r₀)) t = t := by
  induction roads with
  | nil => intro t _; rfl
  | cons a rest ih =>
      intro t h
      rw [List.foldl_cons, upsert_noop s m t a (h a (List.mem_cons_self a rest))]
      exact ih t (fun r hr => h r (List.mem_cons_of_mem a hr))

/-- The chunked batch loop processes the roads in order: it equals the plain
left fold of upserts. -/
theorem runDgviBatches_eq_foldl (s : ℤ → ℚ) (m : String) :
    ∀ (roads : List ℤ) (t : List DgviRow),
      runDgviBatches s m roads t =
        roads.foldl (fun acc r₀ => upsertDgvi acc r₀ m (s r₀)) t := by
  intro roads t
  induction roads, t using runDgviBatches.induct s m with
  | case1 t => rw [runDgviBatches]; rfl
  | case2 r rs t ih =>
      rw [runDgviBatches, ih, upsertBatch, ← List.foldl_append, List.take_append_drop]

/-- `normRow` does not change the key fields or the dgvi value. -/
theorem normRow_fields (m : String) (mn mx : ℚ) (row : DgviRow) :
    (normRow m mn mx row).road_id = row.road_id ∧
    (normRow m mn mx row).month = row.month ∧
    (normRow m mn mx row).dgvi = row.dgvi := by
  unfold normRow
  by_cases h : row.month = m <;> simp [h]

/-- `rowMatches` is invariant under `normRow`. -/
theorem rowMatches_normRow (r : ℤ) (m m₀ : String) (mn mx : ℚ) (row : DgviRow) :
    rowMatches r m (normRow m₀ mn mx row) = rowMatches r m row := by
  obtain ⟨h₁, h₂, _⟩ := normRow_fields m₀ mn mx row
  simp [rowMatches, h₁, h₂]

/-- The month's dgvi list is invariant under the normalization map. -/
theorem monthDgvis_map_normRow (t : List DgviRow) (m m₀ : String) (mn mx : ℚ) :
    monthDgvis (t.map (normRow m₀ mn mx)) m = monthDgvis t m := by
  induction t with
  | nil => rfl
  | cons row rest ih =>
      obtain ⟨_, h₂, h₃⟩ := normRow_fields m₀ mn mx row
      simp only [monthDgvis] at ih ⊢
      simp only [List.map_cons, List.filter_cons, h₂]
      split
      · simp only [List.map_cons, h₃]
        rw [ih]
      · exact ih

/-- Unfolding `normalizeMonth` when the month has no rows. -/
theorem normalizeMonth_eq_nil (t : List DgviRow) (m : String)
    (h : monthDgvis t m = []) : normalizeMonth t m = t := by
  unfold normalizeMonth
  rw [h]

/-- Unfolding `normalizeMonth` when the month has rows. -/
theorem normalizeMonth_eq_cons (t : List DgviRow) (m : String) (v : ℚ) (vs : List ℚ)
    (h : monthDgvis t m = v :: vs) :
    normalizeMonth t m = t.map (normRow m (vs.foldl min v) (vs.foldl max v)) := by
  unfold normalizeMonth
  rw [h]

/-- `ValueSet` is invariant under the normalization map. -/
theorem valueSet_map_normRow (s : ℤ → ℚ) (m m₀ : String) (mn mx : ℚ)
    (t : List DgviRow) (r : ℤ) (h : ValueSet s m t r) :
    ValueSet s m (t.map (normRow m₀ mn mx)) r := by
  obtain ⟨⟨row, hrow, hmatch⟩, hall⟩ := h
  constructor
  · exact ⟨normRow m₀ mn mx row, List.mem_map_of_mem _ hrow,
      by rw [rowMatches_normRow]; exact hmatch⟩
  · intro row' hrow' hmatch'
    obtain ⟨row₀, hrow₀, heq⟩ := List.mem_map.mp hrow'
    rw [← heq]
    rw [← heq, rowMatches_normRow] at hmatch'
    rw [(normRow_fields m₀ mn mx row₀).2.2]
    exact hall row₀ hrow₀ hmatch'

/-- `ValueSet` is invariant under `normalizeMonth`. -/
theorem valueSet_normalizeMonth (s : ℤ → ℚ) (m m₀ : String) (t : List DgviRow)
    (r : ℤ) (h : ValueSet s m t r) : ValueSet s m (normalizeMonth t m₀) r := by
  unfold normalizeMonth
  cases monthDgvis t m₀ with
  | nil => exact h
  | cons v vs => exact valueSet_map_normRow s m m₀ _ _ t r h

/-- `normRow` is idempotent. -/
theorem normRow_idem (m : String) (mn mx : ℚ) (row : DgviRow) :
    normRow m mn mx (normRow m mn mx row) = normRow m mn mx row := by
  unfold normRow
  by_cases h : row.month = m <;> simp [h]

/-- `normalizeMonth` is idempotent. -/
theorem normalizeMonth_idem (t : List DgviRow) (m : String) :
    normalizeMonth (normalizeMonth t m) m = normalizeMonth t m := by
  cases h : monthDgvis t m with
  | nil => rw [normalizeMonth_eq_nil t m h, normalizeMonth_eq_nil t m h]
  | cons v vs =>
      have h1 := normalizeMonth_eq_cons t m v vs h
      have h2 : monthDgvis (normalizeMonth t m) m = v :: vs := by
        rw [h1, monthDgvis_map_normRow, h]
      rw [normalizeMonth_eq_cons _ m v vs h2, h1, List.map_map]
      apply List.map_congr_left
      intro row _
      exact normRow_idem m _ _ row

/-- The bounds delivered by `normalizeMonth`: every row of the month gets a
normalized value in `[0, 1]`, and 0 when the month's min equals its max. -/
theorem normalizeMonth_bounds (t : List DgviRow) (m : String) :
    ∀ row ∈ normalizeMonth t m, row.month = m →
      ∃ x, row.dgvi_normalized = some x ∧ 0 ≤ x ∧ x ≤ 1 ∧
        (monthMinDgvi (normalizeMonth t m) m = monthMaxDgvi (normalizeMonth t m) m →
          x = 0) := by
  intro row hrow hmonth
  cases h : monthDgvis t m with
  | nil =>
      rw [normalizeMonth_eq_nil t m h] at hrow
      have : row.dgvi ∈ monthDgvis t m := by
        unfold monthDgvis
        exact List.mem_map_of_mem _ (List.mem_filter.mpr ⟨hrow, by simp [hmonth]⟩)
      rw [h] at this
      simp at this
  | cons v vs =>
      rw [normalizeMonth_eq_cons t m v vs h] at hrow
      obtain ⟨row₀, hrow₀, heq⟩ := List.mem_map.mp hrow
      have hmonth₀ : row₀.month = m := by
        rw [← (normRow_fields m _ _ row₀).2.1, heq, hmonth]
      have hdgvi₀ : row₀.dgvi ∈ v :: vs := by
        rw [← h]
        unfold monthDgvis
        exact List.mem_map_of_mem _ (List.mem_filter.mpr ⟨hrow₀, by simp [hmonth₀]⟩)
      have hmn : vs.foldl min v ≤ row₀.dgvi := foldl_min_le v vs _ hdgvi₀
      have hmx : row₀.dgvi ≤ vs.foldl max v := le_foldl_max v vs _ hdgvi₀
      have hmnmx : vs.foldl min v ≤ vs.foldl max v := le_trans hmn hmx
      rw [← heq]
      unfold normRow
      rw [if_pos hmonth₀]
      by_cases hcase : vs.foldl max v = vs.foldl min v
      · exact ⟨0, by simp [hcase], le_refl 0, zero_le_one, fun _ => rfl⟩
      · refine ⟨(row₀.dgvi - vs.foldl min v) / (vs.foldl max v - vs.foldl min v),
          by simp [hcase], ?_, ?_, ?_⟩
        · apply div_nonneg (by linarith) (by linarith)
        · rw [div_le_one (by cases lt_or_eq_of_le hmnmx with
            | inl hlt => linarith
            | inr heq2 => exact absurd heq2.symm hcase)]
          linarith
        · intro hminmax
          have hmd : monthDgvis (normalizeMonth t m) m = v :: vs := by
            rw [normalizeMonth_eq_cons t m v vs h, monthDgvis_map_normRow, h]
          unfold monthMinDgvi monthMaxDgvi at hminmax
          rw [hmd] at hminmax
          simp at hminmax
          exact absurd hminmax.symm hcase

/-- C8: the per-month DGVI rebuild is idempotent — running it twice yields the
identical table — and after completion every `dgvi_normalized` of the month
lies in `[0, 1]`, all of them 0 when the month's min dgvi equals its max. -/
theorem dgvi_rebuild_idempotent_and_bounded (s : ℤ → ℚ) (m : String) (roads : List ℤ)
    (t : List DgviRow) :
    updateAllRoadDGVI s m roads (updateAllRoadDGVI s m roads t) =
      updateAllRoadDGVI s m roads t ∧
    ∀ row ∈ updateAllRoadDGVI s m roads t, row.month = m →
      ∃ x, row.dgvi_normalized = some x ∧ 0 ≤ x ∧ x ≤ 1 ∧
        (monthMinDgvi (updateAllRoadDGVI s m roads t) m =
            monthMaxDgvi (updateAllRoadDGVI s m roads t) m → x = 0) := by
  constructor
  · unfold updateAllRoadDGVI
    rw [runDgviBatches_eq_foldl, runDgviBatches_eq_foldl]
    have hset : ∀ r ∈ roads,
        ValueSet s m
          (normalizeMonth (roads.foldl (fun acc r₀ => upsertDgvi acc r₀ m (s r₀)) t) m) r :=
      fun r hr => valueSet_normalizeMonth s m m _ r (foldl_upsert_establishes s m roads t r hr)
    rw [foldl_upsert_noop s m roads _ hset]
    exact normalizeMonth_idem _ m
  · exact normalizeMonth_bounds _ m

/-- C8 (witness): the rebuild for month "2025-08" over roads 1 and 2 starting
from the empty table, with per-road dgvi `r ↦ r`, evaluated at the (road 2)
row of the result. -/
theorem dgvi_rebuild_witness :
    (updateAllRoadDGVI (fun r => (r : ℚ)) "2025-08" [1, 2]
        (updateAllRoadDGVI (fun r => (r : ℚ)) "2025-08" [1, 2] []) =
      updateAllRoadDGVI (fun r => (r : ℚ)) "2025-08" [1, 2] []) ∧
    ∃ x, (⟨2, "2025-08", 2, some 1⟩ : DgviRow).dgvi_normalized = some x ∧
      0 ≤ x ∧ x ≤ 1 ∧
      (monthMinDgvi (updateAllRoadDGVI (fun r => (r : ℚ)) "2025-08" [1, 2] []) "2025-08" =
          monthMaxDgvi (updateAllRoadDGVI (fun r => (r : ℚ)) "2025-08" [1, 2] []) "2025-08" →
        x = 0) :=
  ⟨(dgvi_rebuild_idempotent_and_bounded (fun r => (r : ℚ)) "2025-08" [1, 2] []).1,
    (dgvi_rebuild_idempotent_and_bounded (fun r => (r : ℚ)) "2025-08" [1, 2] []).2
      ⟨2, "2025-08", 2, some 1⟩
      (by
        norm_num [updateAllRoadDGVI, runDgviBatches, upsertBatch, upsertDgvi, rowMatches,
          normalizeMonth, monthDgvis, normRow])
      rfl⟩

/-- Walking route plans satisfy the duration-sum invariant exactly. -/
theorem sumDurations_createWalkingRoute (d : ℚ) (dist : Option ℚ) (ids : Option (List ℤ)) :
    sumDurations (RoutePlan.createWalkingRoute d dist ids) =
      (RoutePlan.createWalkingRoute d dist ids).totalDuration := by
  simp [sumDurations, RoutePlan.createWalkingRoute, createWalkingSegment]

/-- Direct-bus route plans satisfy the duration-sum invariant exactly when the
planner passes its computed total (walk + ride + walk) and the walking
durations are non-negative, as `findDirectRoutes` always does. -/
theorem sumDurations_createDirectBusRoute (cfg : DirectBusConfig)
    (h1 : 0 ≤ cfg.walkingToDeparture) (h2 : 0 ≤ cfg.walkingFromArrival)
    (ht : cfg.totalDuration =
      cfg.walkingToDeparture + cfg.busRideDuration + cfg.walkingFromArrival) :
    sumDurations (RoutePlan.createDirectBusRoute cfg) =
      (RoutePlan.createDirectBusRoute cfg).totalDuration := by
  unfold sumDurations RoutePlan.createDirectBusRoute
  by_cases hw1 : cfg.walkingToDeparture > 0
  · by_cases hw2 : cfg.walkingFromArrival > 0
    · simp [hw1, hw2, createWalkingSegment, createWaitingSegment, createBusRideSegment, ht]
      ring
    · have e2 : cfg.walkingFromArrival = 0 := le_antisymm (not_lt.mp hw2) h2
      simp [hw1, hw2, createWalkingSegment, createWaitingSegment, createBusRideSegment,
        ht, e2]
  · have e1 : cfg.walkingToDeparture = 0 := le_antisymm (not_lt.mp hw1) h1
    by_cases hw2 : cfg.walkingFromArrival > 0
    · simp [hw1, hw2, createWalkingSegment, createWaitingSegment, createBusRideSegment,
        ht, e1]
    · have e2 : cfg.walkingFromArrival = 0 := le_antisymm (not_lt.mp hw2) h2
      simp [hw1, hw2, createWalkingSegment, createWaitingSegment, createBusRideSegment,
        ht, e1, e2]

/-- C3 (failing-input evaluation): the transfer-route assembly of
`createTransferRoutePlan` produces a plan whose `totalDuration` and whose
transfer-waiting segment duration are `NaN` — the transfer-arrival record
`{ site_id, stop_name }` has no coordinates, the haversine distance becomes
`NaN`, and `Math.max(NaN, 60)` keeps it — so the sum of segment durations does
not equal the total duration within 1 second (every comparison against `NaN`
is false). -/
theorem transfer_route_duration_nan :
    (createTransferRoutePlan cexDb cexAgentB cexConnB 3600 90000).isSome = true ∧
    (createTransferRoutePlan cexDb cexAgentB cexConnB 3600 90000).map
      TransferPlanJs.totalDuration = some JsNum.nan ∧
    (createTransferRoutePlan cexDb cexAgentB cexConnB 3600 90000).map
      sumDurationsJs = some JsNum.nan ∧
    (createTransferRoutePlan cexDb cexAgentB cexConnB 3600 90000).map
      durationWithinOneSecond = some false := by
  norm_num [createTransferRoutePlan, createTransferRoute, calculateStopPointDistance,
    jsStrictNeq, getStopPointSite, cexDb, cexStopPoints, cexAgentB, cexConnB, walkingSpeed,
    JsNum.add, JsNum.sub, JsNum.div, JsNum.jsMax, JsNum.gtb, JsNum.leb, JsNum.abs,
    sumDurationsJs, durationWithinOneSecond, List.find?]

end WebGisGvi
